import Mathlib

/-!
Verification development for the mol* frame renderer
(src/mol-gl/renderer.ts).  The renderer is shallowly embedded: the
closure state of Renderer.create becomes an explicit RendererState
record, the WebGL state machine becomes a GLState record, and a render
call produces a trace of GL events (draw calls, buffer clears, the
WBOIT resolve draw, flush) so that draw ordering, blend state at each
draw, and clear behaviour can be stated and proved.

Machine floats are modelled by exact rationals; the axis-angle to
quaternion conversion (Quat.setAxisAngle composed with degToRad, which
uses floating point sin/cos) is passed as an explicit function
parameter named saa wherever clip parameters are processed — no claim
depends on its values.
-/

namespace MolGL

/-- WebGL capability probe (ctx.extensions in renderer.ts line 167/172):
presence of the drawBuffers, textureFloat, colorBufferFloat and
depthTexture extensions.  In the source a missing extension is null. -/
structure Caps where
  drawBuffers : Bool
  textureFloat : Bool
  colorBufferFloat : Bool
  depthTexture : Bool
deriving DecidableEq, Repr

/-- Graphics render variant (render-item.ts, not under src): the color
variant plus the pick variants (all of which start with the letter p,
which is what renderer.ts line 277 tests) and the depth variant. -/
inductive Variant
| color
| pick
| depth
deriving DecidableEq, Repr

/-- Mirrors the test variant[0] === 'p' in renderer.ts line 277. -/
def Variant.startsP : Variant → Bool
| Variant.pick => true
| _ => false

/-- GL blend factors used by renderer.ts. -/
inductive BlendFactor
| ZERO
| ONE
| SRC_ALPHA
| ONE_MINUS_SRC_ALPHA
deriving DecidableEq, Repr

/-- Arguments of gl.blendFuncSeparate(srcRGB, dstRGB, srcAlpha, dstAlpha). -/
structure BlendFuncSep where
  srcRGB : BlendFactor
  dstRGB : BlendFactor
  srcAlpha : BlendFactor
  dstAlpha : BlendFactor
deriving DecidableEq, Repr

/-- Which framebuffer is currently bound: the default framebuffer
(gl.bindFramebuffer null), the render target passed to render, or an
offscreen framebuffer resource identified by id. -/
inductive FbBinding
| defaultFb
| target
| fb (id : Nat)
deriving DecidableEq, Repr

/-- A normalized rgba color value (floats in the source, exact here). -/
structure Rgba where
  r : ℚ
  g : ℚ
  b : ℚ
  a : ℚ
deriving DecidableEq, Repr

/-- A normalized rgb triple. -/
structure Vec3q where
  x : ℚ
  y : ℚ
  z : ℚ
deriving DecidableEq, Repr

/-- A quaternion as stored by Quat.toArray: x, y, z, w. -/
structure Quat4 where
  x : ℚ
  y : ℚ
  z : ℚ
  w : ℚ
deriving DecidableEq, Repr

/-- Modelled from the spec: Color.toVec3Normalized (mol-util/color, not
under src) unpacks a 0xRRGGBB packed integer into normalized r, g, b
components in the unit interval (channel value divided by 255). -/
def normColor (c : Nat) : Vec3q :=
  ⟨(((c / 65536) % 256 : Nat) : ℚ) / 255,
   (((c / 256) % 256 : Nat) : ℚ) / 255,
   ((c % 256 : Nat) : ℚ) / 255⟩

/-- Clipping variant (mol-theme/clipping): per-instance or per-pixel.
The source value is the string instance or pixel. -/
inductive ClipVariant
| instanceV
| pixel
deriving DecidableEq, Repr

/-- Modelled from the spec: Clipping.Type (mol-theme/clipping, not under
src) — the closed set of clip volume kinds listed in the spec data
model. -/
inductive ClipType
| none
| plane
| sphere
| cube
| cylinder
| infiniteCone
deriving DecidableEq, Repr

/-- Modelled from the spec: the numeric codes of Clipping.Type used in
the shader-facing arrays; plane has code 1, matching the fill value 1
of the unused type slots in renderer.ts line 147. -/
def ClipType.code : ClipType → Nat
| ClipType.none => 0
| ClipType.plane => 1
| ClipType.sphere => 2
| ClipType.cube => 3
| ClipType.cylinder => 4
| ClipType.infiniteCone => 5

/-- One configured clip object (RendererParams.clip.objects entry,
renderer.ts lines 88-96): type, position, rotation as axis plus angle
in degrees, scale. -/
structure ClipObjectProps where
  type : ClipType
  position : Vec3q
  rotationAxis : Vec3q
  rotationAngle : ℚ
  scale : Vec3q
deriving DecidableEq, Repr

/-- The clip parameter group (renderer.ts lines 86-97). -/
structure ClipProps where
  variant : ClipVariant
  objects : List ClipObjectProps
deriving DecidableEq, Repr

/-- The derived clip object arrays (type Clip, renderer.ts lines
133-142): flat arrays consumed by the shader plus the configured
count. -/
structure ClipObjects where
  count : Nat
  type : List Nat
  position : List ℚ
  rotation : List ℚ
  scale : List ℚ
deriving DecidableEq, Repr

/-- The derived clip state (renderer.ts type Clip). -/
structure Clip where
  variant : ClipVariant
  objects : ClipObjects
deriving DecidableEq, Repr

/-- JavaScript array element assignment arr[i] = v: in range it
overwrites, at or past the end it grows the array (holes are filled
with pad; the access pattern of getClip only ever appends
contiguously, so pad is never observable). -/
def setGrow {α : Type} (pad : α) (l : List α) (i : Nat) (v : α) : List α :=
  if i < l.length then l.set i v
  else l ++ List.replicate (i - l.length) pad ++ [v]

/-- Vec3.toArray(v, array, offset): writes the three components at
offset, offset+1, offset+2. -/
def writeVec3 (arr : List ℚ) (off : Nat) (v : Vec3q) : List ℚ :=
  setGrow 0 (setGrow 0 (setGrow 0 arr off v.x) (off + 1) v.y) (off + 2) v.z

/-- Quat.toArray(q, array, offset): writes the four components at
offset through offset+3. -/
def writeQuat (arr : List ℚ) (off : Nat) (q : Quat4) : List ℚ :=
  setGrow 0 (setGrow 0 (setGrow 0 (setGrow 0 arr off q.x) (off + 1) q.y) (off + 2) q.z) (off + 3) q.w

/-- The fresh arrays built by getClip when no previous clip state exists
(renderer.ts lines 146-151): 5 type slots filled with 1, 15 position
slots filled with 0, 20 rotation slots filled with 0, 15 scale slots
filled with 1. -/
def clipDefaults : ClipObjects :=
  { count := 0
    type := List.replicate 5 1
    position := List.replicate (5 * 3) 0
    rotation := List.replicate (5 * 4) 0
    scale := List.replicate (5 * 3) 1 }

/-- The body of the loop in getClip (renderer.ts lines 152-158) for
object index i: type[i] = Clipping.Type[p.type]; position written at
i*3; the axis-angle quaternion written at i*4; scale written at i*3.
saa stands for the composition Quat.setAxisAngle with degToRad. -/
def writeClipObject (saa : Vec3q → ℚ → Quat4) (i : Nat) (o : ClipObjectProps) (c : ClipObjects) : ClipObjects :=
  { c with
    type := setGrow 0 c.type i (ClipType.code o.type)
    position := writeVec3 c.position (i * 3) o.position
    rotation := writeQuat c.rotation (i * 4) (saa o.rotationAxis o.rotationAngle)
    scale := writeVec3 c.scale (i * 3) o.scale }

/-- The loop of getClip (renderer.ts lines 152-158), starting at index i. -/
def clipWrite (saa : Vec3q → ℚ → Quat4) : Nat → List ClipObjectProps → ClipObjects → ClipObjects
| _, [], c => c
| i, o :: os, c => clipWrite saa (i + 1) os (writeClipObject saa i o c)

/-- getClip (renderer.ts lines 145-163): reuses the arrays of the
previous clip state when one is given (the source mutates them in
place), writes one slot group per configured object, and records the
configured count. -/
def getClip (saa : Vec3q → ℚ → Quat4) (props : ClipProps) (prev : Option Clip) : Clip :=
  let base := match prev with
    | some c => c.objects
    | none => clipDefaults
  let written := clipWrite saa 0 props.objects base
  { variant := props.variant
    objects := { written with count := props.objects.length } }

/-- The style parameter (RendererParams.style, renderer.ts lines 71-84):
a named lighting style or explicit custom coefficients. -/
inductive StyleProps
| custom (lightIntensity ambientIntensity metalness roughness reflectivity : ℚ)
| flat
| matte
| glossy
| metallic
| plastic
deriving DecidableEq, Repr

/-- The five resolved lighting coefficients. -/
structure StyleCoeffs where
  lightIntensity : ℚ
  ambientIntensity : ℚ
  metalness : ℚ
  roughness : ℚ
  reflectivity : ℚ
deriving DecidableEq, Repr

/-- getStyle (renderer.ts lines 101-131). -/
def getStyle : StyleProps → StyleCoeffs
| StyleProps.custom li ai m r re => ⟨li, ai, m, r, re⟩
| StyleProps.flat => ⟨0, 1, 0, 0.4, 0.5⟩
| StyleProps.matte => ⟨0.6, 0.4, 0, 1, 0.5⟩
| StyleProps.glossy => ⟨0.6, 0.4, 0, 0.4, 0.5⟩
| StyleProps.metallic => ⟨0.6, 0.4, 0.4, 0.6, 0.5⟩
| StyleProps.plastic => ⟨0.6, 0.4, 0, 0.2, 0.5⟩

/-- Transparency variant (mol-theme/transparency): single or multi. -/
inductive TransparencyVariant
| single
| multi
deriving DecidableEq, Repr

/-- The renderer properties (RendererProps, renderer.ts lines 57-99),
after PD.merge with the defaults. -/
structure Props where
  backgroundColor : Nat
  pickingAlphaThreshold : ℚ
  transparencyVariant : TransparencyVariant
  interiorDarkening : ℚ
  interiorColorFlag : Bool
  interiorColor : Nat
  highlightColor : Nat
  selectColor : Nat
  style : StyleProps
  clip : ClipProps
deriving DecidableEq, Repr

/-- PD.getDefaultValues(RendererParams): the default property values
(packed colors are the rounded byte encodings of the normalized
defaults in renderer.ts lines 57-97). -/
def defaultProps : Props :=
  { backgroundColor := 0x000000
    pickingAlphaThreshold := 0.5
    transparencyVariant := TransparencyVariant.single
    interiorDarkening := 0.5
    interiorColorFlag := true
    interiorColor := 0x4D4D4D
    highlightColor := 0xFF6699
    selectColor := 0x33FF1A
    style := StyleProps.matte
    clip := { variant := ClipVariant.instanceV, objects := [] } }

/-- A partial property update as accepted by setProps: undefined fields
are absent. -/
structure PartialProps where
  backgroundColor : Option Nat
  pickingAlphaThreshold : Option ℚ
  transparencyVariant : Option TransparencyVariant
  interiorDarkening : Option ℚ
  interiorColorFlag : Option Bool
  interiorColor : Option Nat
  highlightColor : Option Nat
  selectColor : Option Nat
  style : Option StyleProps
  clip : Option ClipProps
deriving DecidableEq, Repr

/-- The update with every field absent. -/
def emptyPartial : PartialProps :=
  ⟨none, none, none, none, none, none, none, none, none, none⟩

/-- A setProps argument carrying only a background color. -/
def bgPartial (c : Nat) : PartialProps :=
  { emptyPartial with backgroundColor := some c }

/-- A setProps argument carrying only clip parameters. -/
def clipPartial (cp : ClipProps) : PartialProps :=
  { emptyPartial with clip := some cp }

/-- The subset of the global uniform block (renderer.ts lines 219-271)
tracked by this model: the values the claims inspect.  The per-frame
camera and model matrix uniforms (uModel through uFogNear,
uDrawingBufferSize, uCameraPosition, uCameraDir, uIsOrtho,
uViewOffset) are direct copies of render call inputs and are not
tracked. -/
structure GlobalUniforms where
  uViewportHeight : Int
  uViewport : Int × Int × Int × Int
  uFogColor : Vec3q
  uPickingAlphaThreshold : ℚ
  uInteriorDarkening : ℚ
  uInteriorColorFlag : Bool
  uInteriorColor : Vec3q
  uHighlightColor : Vec3q
  uSelectColor : Vec3q
  uLightIntensity : ℚ
  uAmbientIntensity : ℚ
  uMetalness : ℚ
  uRoughness : ℚ
  uReflectivity : ℚ
  uClipObjectType : List Nat
  uClipObjectPosition : List ℚ
  uClipObjectRotation : List ℚ
  uClipObjectScale : List ℚ
  uRenderWboit : Nat
  uTransparentBackground : Bool
deriving DecidableEq, Repr

/-- Modelled from the spec: the WebGL resource manager (ctx.resources,
not under src) hands out framebuffer and texture objects with fresh
identities, ctx.stats.resourceCounts counts the live ones, and destroy
releases one. -/
structure Resources where
  nextId : Nat
  framebuffers : List Nat
  textures : List Nat
deriving DecidableEq, Repr

/-- resources.texture(...): allocate a texture, return it and its id. -/
def Resources.newTexture (r : Resources) : Resources × Nat :=
  ({ r with nextId := r.nextId + 1, textures := r.textures ++ [r.nextId] }, r.nextId)

/-- resources.framebuffer(): allocate a framebuffer. -/
def Resources.newFramebuffer (r : Resources) : Resources × Nat :=
  ({ r with nextId := r.nextId + 1, framebuffers := r.framebuffers ++ [r.nextId] }, r.nextId)

/-- framebuffer.destroy(): release a framebuffer. -/
def Resources.destroyFramebuffer (r : Resources) (i : Nat) : Resources :=
  { r with framebuffers := r.framebuffers.filter (fun j => j != i) }

/-- texture.attachFramebuffer(fb, slot): record the texture among the
attachments of the framebuffer (the color slot index does not matter
for clearing, which affects every color attachment of the bound
framebuffer). -/
def attachTex (att : List (Nat × List Nat)) (t : Nat) (fb : Nat) : List (Nat × List Nat) :=
  if att.any (fun e => e.fst == fb) then
    att.map (fun e => if e.fst == fb then (e.fst, e.snd ++ [t]) else e)
  else att ++ [(fb, [t])]

/-- The optional-chaining form wboitTexture?.attachFramebuffer(...). -/
def attachTexOpt (att : List (Nat × List Nat)) : Option Nat → Nat → List (Nat × List Nat)
| none, _ => att
| some t, fb => attachTex att t fb

/-- texture.define(width, height): (re)size a texture in place. -/
def defineTexOpt (sizes : List (Nat × Int × Int)) : Option Nat → Int → Int → List (Nat × Int × Int)
| none, _, _ => sizes
| some t, w, h => (sizes.filter (fun e => e.fst != t)) ++ [(t, w, h)]

/-- The drawable flags read by the renderer (RenderableState fields
visible, pickable, opaque, writeDepth, colorOnly; the opaque field is
spelled opaqueFlag here). -/
structure RState where
  visible : Bool
  pickable : Bool
  opaqueFlag : Bool
  writeDepth : Bool
  colorOnly : Bool
deriving DecidableEq, Repr

/-- The value of the dRenderMode define when present (direct-volume
drawables): the string volume or isosurface in the source. -/
inductive RenderMode
| volume
| isosurface
deriving DecidableEq, Repr

/-- The renderable value cells read by renderObject for GPU state setup
(renderer.ts lines 309-353).  The defines dClipObjectCount,
dClipVariant and dTransparencyVariant synchronized in lines 281-294
configure the drawable's own shader and are not tracked. -/
structure RenderableValues where
  dRenderMode : Option RenderMode
  dDoubleSided : Option Bool
  hasReflection : Bool
  dFlipSided : Option Bool
deriving DecidableEq, Repr

/-- One drawable of the scene, identified by id. -/
structure Renderable where
  id : Nat
  state : RState
  values : RenderableValues
deriving DecidableEq, Repr

/-- The tracked WebGL context state (ctx.state): the pieces of global
GPU state renderer.ts sets through state.enable, state.disable,
state.blendFuncSeparate, state.depthMask, state.colorMask,
state.clearColor, state.frontFace, state.cullFace, and the bound
framebuffer. -/
structure GLState where
  scissorTest : Bool
  blend : Bool
  blendFunc : BlendFuncSep
  depthTest : Bool
  depthMask : Bool
  colorMaskAll : Bool
  clearColor : Rgba
  cullFaceEnabled : Bool
  frontFaceCW : Bool
  cullFront : Bool
  boundFb : FbBinding
deriving DecidableEq, Repr

/-- A GL default state, used by concrete examples: everything disabled,
blend factors at the GL defaults. -/
def initGLState : GLState :=
  { scissorTest := false
    blend := false
    blendFunc := ⟨BlendFactor.ONE, BlendFactor.ZERO, BlendFactor.ONE, BlendFactor.ZERO⟩
    depthTest := false
    depthMask := true
    colorMaskAll := true
    clearColor := ⟨0, 0, 0, 0⟩
    cullFaceEnabled := false
    frontFaceCW := false
    cullFront := false
    boundFb := FbBinding.defaultFb }

/-- The observable GL events of one render or clear call. -/
inductive Event
| draw (id : Nat) (v : Variant) (s : GLState)
| clearCall (bound : FbBinding) (c : Rgba) (colorBit : Bool) (depthBit : Bool)
| evaluateWboitDraw (s : GLState)
| flush
deriving DecidableEq, Repr

/-- The closure state of Renderer.create (renderer.ts lines 166-271):
capabilities, the WBOIT capability decision, the WBOIT resources, the
merged properties, the derived style, background color and clip state,
and the tracked uniform block. -/
structure RendererState where
  caps : Caps
  fragDepth : Bool
  enableWboit : Bool
  wboitATexture : Option Nat
  wboitBTexture : Option Nat
  hasEvaluateWboit : Bool
  wboitFramebuffers : List Nat
  attachments : List (Nat × List Nat)
  texSizes : List (Nat × Int × Int)
  res : Resources
  viewportX : Int
  viewportY : Int
  viewportW : Int
  viewportH : Int
  p : Props
  style : StyleCoeffs
  bgColor : Vec3q
  clip : Clip
  uniforms : GlobalUniforms
deriving DecidableEq, Repr

/-- The stats counters the claims inspect (renderer.ts lines 634-650):
ctx.stats.resourceCounts.framebuffer and .texture. -/
structure RendererStats where
  framebufferCount : Nat
  textureCount : Nat
deriving DecidableEq, Repr

/-- The renderer stats getter restricted to the tracked counters. -/
def Renderer.statsOf (st : RendererState) : RendererStats :=
  ⟨st.res.framebuffers.length, st.res.textures.length⟩

/-- Renderer.create (renderer.ts lines 166-271).  props is the result of
the PD.merge of the partial input with the defaults; saa is the
axis-angle to quaternion conversion used by getClip; fragDepth is the
fragDepth extension flag destructured in line 167. -/
def Renderer.create (saa : Vec3q → ℚ → Quat4) (caps : Caps) (fragDepth : Bool) (props : Props) : RendererState :=
  let p := props
  let style := getStyle p.style
  let clip := getClip saa p.clip none
  let bgColor := normColor p.backgroundColor
  let enableWboit := caps.textureFloat && caps.colorBufferFloat && caps.depthTexture
  let res0 : Resources := ⟨0, [], []⟩
  let ra := if enableWboit then
      let q := res0.newTexture
      (q.fst, some q.snd)
    else (res0, (none : Option Nat))
  let rb := if enableWboit then
      let q := ra.fst.newTexture
      (q.fst, some q.snd)
    else (ra.fst, (none : Option Nat))
  let sizes := defineTexOpt (defineTexOpt [] ra.snd 0 0) rb.snd 0 0
  let hasEvaluateWboit := enableWboit
  let r0 := rb.fst.newFramebuffer
  let after :=
    if caps.drawBuffers then
      let r1 := r0.fst.newFramebuffer
      (r1.fst, [r0.snd, r1.snd],
        attachTexOpt (attachTexOpt [] ra.snd r0.snd) rb.snd r0.snd)
    else
      let r1 := r0.fst.newFramebuffer
      let r2 := r1.fst.newFramebuffer
      (r2.fst, [r0.snd, r1.snd, r2.snd],
        attachTexOpt (attachTexOpt [] ra.snd r0.snd) rb.snd r1.snd)
  { caps := caps
    fragDepth := fragDepth
    enableWboit := enableWboit
    wboitATexture := ra.snd
    wboitBTexture := rb.snd
    hasEvaluateWboit := hasEvaluateWboit
    wboitFramebuffers := after.snd.fst
    attachments := after.snd.snd
    texSizes := sizes
    res := after.fst
    viewportX := 0
    viewportY := 0
    viewportW := 0
    viewportH := 0
    p := p
    style := style
    bgColor := bgColor
    clip := clip
    uniforms :=
      { uViewportHeight := 0
        uViewport := (0, 0, 0, 0)
        uFogColor := bgColor
        uPickingAlphaThreshold := p.pickingAlphaThreshold
        uInteriorDarkening := p.interiorDarkening
        uInteriorColorFlag := p.interiorColorFlag
        uInteriorColor := normColor p.interiorColor
        uHighlightColor := normColor p.highlightColor
        uSelectColor := normColor p.selectColor
        uLightIntensity := style.lightIntensity
        uAmbientIntensity := style.ambientIntensity
        uMetalness := style.metalness
        uRoughness := style.roughness
        uReflectivity := style.reflectivity
        uClipObjectType := clip.objects.type
        uClipObjectPosition := clip.objects.position
        uClipObjectRotation := clip.objects.rotation
        uClipObjectScale := clip.objects.scale
        uRenderWboit := 0
        uTransparentBackground := false } }

/-- The GPU state setup of renderObject for a drawable that is actually
drawn (renderer.ts lines 309-353): the direct-volume special case, the
double-sided and flip-sided culling setup, and the depth mask from the
drawable's writeDepth flag. -/
def drawGLState (fragDepth : Bool) (r : Renderable) (s : GLState) : GLState :=
  match r.values.dRenderMode with
  | some m =>
    let s1 := { s with cullFaceEnabled := true, frontFaceCW := true, cullFront := false }
    if m = RenderMode.volume ∨ fragDepth = false then
      { s1 with depthTest := false, depthMask := false }
    else
      { s1 with depthTest := true, depthMask := r.state.writeDepth }
  | none =>
    let s1 := { s with depthTest := true }
    let s2 :=
      match r.values.dDoubleSided with
      | some ds =>
        if ds || r.values.hasReflection then { s1 with cullFaceEnabled := false }
        else { s1 with cullFaceEnabled := true }
      | none => { s1 with cullFaceEnabled := false }
    let s3 :=
      match r.values.dFlipSided with
      | some fs =>
        if fs then { s2 with frontFaceCW := true, cullFront := true }
        else { s2 with frontFaceCW := false, cullFront := false }
      | none => { s2 with frontFaceCW := false, cullFront := false }
    { s3 with depthMask := r.state.writeDepth }

/-- renderObject (renderer.ts lines 276-356): skip invisible drawables,
and unpickable drawables in the pick variants; otherwise set up GPU
state and issue the draw (r.render).  The define synchronization and
program and uniform upload of lines 281-307 configure the drawable's
shader and are not tracked as events. -/
def renderObject (fragDepth : Bool) (r : Renderable) (v : Variant) (s : GLState) : GLState × List Event :=
  if !r.state.visible || (!r.state.pickable && v.startsP) then (s, [])
  else
    (drawGLState fragDepth r s, [Event.draw r.id v (drawGLState fragDepth r s)])

/-- One of the for loops over group.renderables guarded by a state
predicate (renderer.ts lines 430-447 and similar). -/
def renderLoop (fragDepth : Bool) (pred : RState → Bool) (v : Variant) : List Renderable → GLState → GLState × List Event
| [], s => (s, [])
| r :: rs, s =>
  if pred r.state then
    ((renderLoop fragDepth pred v rs (renderObject fragDepth r v s).fst).fst,
      (renderObject fragDepth r v s).snd ++ (renderLoop fragDepth pred v rs (renderObject fragDepth r v s).fst).snd)
  else renderLoop fragDepth pred v rs s

/-- The single blendFuncSeparate call of the non-WBOIT color path
(renderer.ts line 500): SRC_ALPHA, ONE_MINUS_SRC_ALPHA, ONE, ONE. -/
def fallbackBlendFunc : BlendFuncSep :=
  ⟨BlendFactor.SRC_ALPHA, BlendFactor.ONE_MINUS_SRC_ALPHA, BlendFactor.ONE, BlendFactor.ONE⟩

/-- The accumulation blend of the WBOIT sub-pass (renderer.ts line 459). -/
def wboitAccumBlendFunc : BlendFuncSep :=
  ⟨BlendFactor.ONE, BlendFactor.ONE, BlendFactor.ZERO, BlendFactor.ONE_MINUS_SRC_ALPHA⟩

/-- The resolve blend of the WBOIT sub-pass (renderer.ts line 485). -/
def wboitResolveBlendFunc : BlendFuncSep :=
  ⟨BlendFactor.ONE_MINUS_SRC_ALPHA, BlendFactor.SRC_ALPHA, BlendFactor.ZERO, BlendFactor.ONE⟩

/-- The three bucket loops of the color variant (renderer.ts lines
430-447, repeated in lines 461-478): opaque, then transparent with
writeDepth, then transparent without writeDepth, each over the full
renderables list in order. -/
def threeBuckets (fragDepth : Bool) (rs : List Renderable) (s : GLState) : GLState × List Event :=
  let r1 := renderLoop fragDepth (fun st => st.opaqueFlag) Variant.color rs s
  let r2 := renderLoop fragDepth (fun st => !st.opaqueFlag && st.writeDepth) Variant.color rs r1.fst
  let r3 := renderLoop fragDepth (fun st => !st.opaqueFlag && !st.writeDepth) Variant.color rs r2.fst
  (r3.fst, r1.snd ++ r2.snd ++ r3.snd)

/-- The non-WBOIT color path (renderer.ts lines 492-514): opaque bucket
with whatever blend state the pass setup left (blending disabled),
then one blendFuncSeparate(SRC_ALPHA, ONE_MINUS_SRC_ALPHA, ONE, ONE)
and blending enabled for both transparent buckets. -/
def fallbackColorPass (fragDepth : Bool) (rs : List Renderable) (s : GLState) : GLState × List Event :=
  let r1 := renderLoop fragDepth (fun st => st.opaqueFlag) Variant.color rs s
  let s2 := { r1.fst with blendFunc := fallbackBlendFunc, blend := true }
  let r2 := renderLoop fragDepth (fun st => !st.opaqueFlag && st.writeDepth) Variant.color rs s2
  let r3 := renderLoop fragDepth (fun st => !st.opaqueFlag && !st.writeDepth) Variant.color rs r2.fst
  (r3.fst, r1.snd ++ r2.snd ++ r3.snd)

/-- The WBOIT transparent sub-pass (renderer.ts lines 448-491): bind
wboitFramebuffers[0], clear its color attachments to (0,0,0,1),
disable depth test, enable additive accumulation blending, run the
three bucket loops, rebind the target, and resolve with a full-screen
draw of the evaluate renderable (when it exists). -/
def wboitSubpass (st : RendererState) (targetFb : FbBinding) (rs : List Renderable) (s : GLState) : GLState × List Event :=
  let s1 := { s with boundFb := FbBinding.fb (st.wboitFramebuffers.headD 0), clearColor := ⟨0, 0, 0, 1⟩ }
  let ev0 := [Event.clearCall s1.boundFb ⟨0, 0, 0, 1⟩ true false]
  let s2 := { s1 with depthTest := false, blend := true, blendFunc := wboitAccumBlendFunc }
  let rMain := threeBuckets st.fragDepth rs s2
  let s3 := { rMain.fst with boundFb := targetFb }
  let s4 := { s3 with blendFunc := wboitResolveBlendFunc, blend := true, depthTest := false }
  (s4, ev0 ++ rMain.snd ++ (if st.hasEvaluateWboit then [Event.evaluateWboitDraw s4] else []))

/-- The pick and depth path (renderer.ts lines 515-523): nothing at all
in a transparent sub-pass, otherwise one loop skipping colorOnly
drawables. -/
def pickDepthPass (fragDepth : Bool) (v : Variant) (rs : List Renderable) (renderTransparent : Bool) (s : GLState) : GLState × List Event :=
  if renderTransparent = false then
    renderLoop fragDepth (fun st => !st.colorOnly) v rs s
  else (s, [])

/-- The inputs of one render call (renderer.ts line 358).  The camera,
group view matrix, drawingBufferScale and depthTexture arguments feed
only untracked uniforms and the shared texture list. -/
structure RenderArgs where
  hasRenderTarget : Bool
  renderables : List Renderable
  variant : Variant
  clear : Bool
  transparentBackground : Bool
  renderTransparent : Bool
deriving DecidableEq, Repr

/-- render (renderer.ts lines 358-526).  Returns the renderer state (its
tracked uniform updates), the final GL state, and the event trace.
Lines 364-395 update the untracked camera uniforms; line 384 updates
uTransparentBackground and line 386 resets uRenderWboit. -/
def Renderer.render (st : RendererState) (gls : GLState) (a : RenderArgs) : RendererState × GLState × List Event :=
  let st1 := { st with uniforms := { st.uniforms with
    uTransparentBackground := a.transparentBackground, uRenderWboit := 0 } }
  let targetFb := if a.hasRenderTarget then FbBinding.target else FbBinding.defaultFb
  let s0 := { gls with scissorTest := true, blend := false, colorMaskAll := true, depthTest := true, boundFb := targetFb }
  let cleared :=
    if a.clear then
      let c : Rgba :=
        if a.variant = Variant.color then
          ⟨st1.bgColor.x, st1.bgColor.y, st1.bgColor.z, if a.transparentBackground then 0 else 1⟩
        else ⟨1, 1, 1, 1⟩
      ({ s0 with depthMask := true, clearColor := c }, [Event.clearCall targetFb c true true])
    else (s0, [])
  if a.variant = Variant.color then
    if st1.enableWboit then
      if a.renderTransparent then
        let st2 := { st1 with uniforms := { st1.uniforms with uRenderWboit := 1 } }
        let rs := wboitSubpass st2 targetFb a.renderables cleared.fst
        (st2, rs.fst, cleared.snd ++ rs.snd ++ [Event.flush])
      else
        let rs := threeBuckets st1.fragDepth a.renderables cleared.fst
        (st1, rs.fst, cleared.snd ++ rs.snd ++ [Event.flush])
    else
      let rs := fallbackColorPass st1.fragDepth a.renderables cleared.fst
      (st1, rs.fst, cleared.snd ++ rs.snd ++ [Event.flush])
  else
    let rs := pickDepthPass st1.fragDepth a.variant a.renderables a.renderTransparent cleared.fst
    (st1, rs.fst, cleared.snd ++ rs.snd ++ [Event.flush])

/-- The standalone clear method (renderer.ts lines 529-536): unbind the
framebuffer, clear color and depth to the background color, with alpha
0 for a transparent background and 1 otherwise. -/
def Renderer.clear (st : RendererState) (gls : GLState) (transparentBackground : Bool) : GLState × List Event :=
  let c : Rgba := ⟨st.bgColor.x, st.bgColor.y, st.bgColor.z, if transparentBackground then 0 else 1⟩
  let s := { gls with boundFb := FbBinding.defaultFb, scissorTest := true, depthMask := true, colorMaskAll := true, clearColor := c }
  (s, [Event.clearCall FbBinding.defaultFb c true true])

/-- The backgroundColor block of setProps (renderer.ts lines 540-544). -/
def updateBackgroundColor (st : RendererState) : Option Nat → RendererState
| some c =>
  if c ≠ st.p.backgroundColor then
    { st with p := { st.p with backgroundColor := c }, bgColor := normColor c, uniforms := { st.uniforms with uFogColor := normColor c } }
  else st
| none => st

/-- The pickingAlphaThreshold block of setProps (lines 546-549). -/
def updatePickingAlphaThreshold (st : RendererState) : Option ℚ → RendererState
| some v =>
  if v ≠ st.p.pickingAlphaThreshold then
    { st with p := { st.p with pickingAlphaThreshold := v }, uniforms := { st.uniforms with uPickingAlphaThreshold := v } }
  else st
| none => st

/-- The transparencyVariant block of setProps (lines 550-552). -/
def updateTransparencyVariant (st : RendererState) : Option TransparencyVariant → RendererState
| some v =>
  if v ≠ st.p.transparencyVariant then
    { st with p := { st.p with transparencyVariant := v } }
  else st
| none => st

/-- The interiorDarkening block of setProps (lines 554-557). -/
def updateInteriorDarkening (st : RendererState) : Option ℚ → RendererState
| some v =>
  if v ≠ st.p.interiorDarkening then
    { st with p := { st.p with interiorDarkening := v }, uniforms := { st.uniforms with uInteriorDarkening := v } }
  else st
| none => st

/-- The interiorColorFlag block of setProps (lines 558-561). -/
def updateInteriorColorFlag (st : RendererState) : Option Bool → RendererState
| some v =>
  if v ≠ st.p.interiorColorFlag then
    { st with p := { st.p with interiorColorFlag := v }, uniforms := { st.uniforms with uInteriorColorFlag := v } }
  else st
| none => st

/-- The interiorColor block of setProps (lines 562-565). -/
def updateInteriorColor (st : RendererState) : Option Nat → RendererState
| some v =>
  if v ≠ st.p.interiorColor then
    { st with p := { st.p with interiorColor := v }, uniforms := { st.uniforms with uInteriorColor := normColor v } }
  else st
| none => st

/-- The highlightColor block of setProps (lines 567-570). -/
def updateHighlightColor (st : RendererState) : Option Nat → RendererState
| some v =>
  if v ≠ st.p.highlightColor then
    { st with p := { st.p with highlightColor := v }, uniforms := { st.uniforms with uHighlightColor := normColor v } }
  else st
| none => st

/-- The selectColor block of setProps (lines 571-574). -/
def updateSelectColor (st : RendererState) : Option Nat → RendererState
| some v =>
  if v ≠ st.p.selectColor then
    { st with p := { st.p with selectColor := v }, uniforms := { st.uniforms with uSelectColor := normColor v } }
  else st
| none => st

/-- The style block of setProps (lines 576-584); unconditional when the
property is present. -/
def updateStyle (st : RendererState) : Option StyleProps → RendererState
| some sp =>
  let sc := getStyle sp
  { st with p := { st.p with style := sp }, style := sc, uniforms := { st.uniforms with
      uLightIntensity := sc.lightIntensity, uAmbientIntensity := sc.ambientIntensity, uMetalness := sc.metalness, uRoughness := sc.roughness, uReflectivity := sc.reflectivity } }
| none => st

/-- The clip block of setProps (lines 586-593): applied only when the
value deep-differs from the current one, reusing the previous clip
arrays. -/
def updateClip (saa : Vec3q → ℚ → Quat4) (st : RendererState) : Option ClipProps → RendererState
| some cp =>
  if cp ≠ st.p.clip then
    let newClip := getClip saa cp (some st.clip)
    { st with p := { st.p with clip := cp }, clip := newClip, uniforms := { st.uniforms with
        uClipObjectPosition := newClip.objects.position, uClipObjectRotation := newClip.objects.rotation, uClipObjectScale := newClip.objects.scale, uClipObjectType := newClip.objects.type } }
  else st
| none => st

/-- setProps (renderer.ts lines 539-594): the per-property blocks in
source order; each block other than style requires the property to be
present and different from the current value. -/
def Renderer.setProps (saa : Vec3q → ℚ → Quat4) (st : RendererState) (pr : PartialProps) : RendererState :=
  updateClip saa
    (updateStyle
      (updateSelectColor
        (updateHighlightColor
          (updateInteriorColor
            (updateInteriorColorFlag
              (updateInteriorDarkening
                (updateTransparencyVariant
                  (updatePickingAlphaThreshold
                    (updateBackgroundColor st pr.backgroundColor)
                    pr.pickingAlphaThreshold)
                  pr.transparencyVariant)
                pr.interiorDarkening)
              pr.interiorColorFlag)
            pr.interiorColor)
          pr.highlightColor)
        pr.selectColor)
      pr.style)
    pr.clip

/-- setViewport (renderer.ts lines 595-629): gl.viewport and gl.scissor
are called unconditionally (rasterizer state, not tracked); everything
else — the viewport record, the two viewport uniforms, the WBOIT
texture resize and the framebuffer rebuild — happens only when one of
the four values changed. -/
def Renderer.setViewport (st : RendererState) (x y w h : Int) : RendererState :=
  if x ≠ st.viewportX ∨ y ≠ st.viewportY ∨ w ≠ st.viewportW ∨ h ≠ st.viewportH then
    let stA := { st with viewportX := x, viewportY := y, viewportW := w, viewportH := h, uniforms := { st.uniforms with uViewportHeight := h, uViewport := (x, y, w, h) }, texSizes := defineTexOpt (defineTexOpt st.texSizes st.wboitATexture w h) st.wboitBTexture w h }
    if stA.caps.drawBuffers then
      let res1 := stA.res.destroyFramebuffer (stA.wboitFramebuffers.headD 0)
      let r1 := res1.newFramebuffer
      { stA with res := r1.fst, wboitFramebuffers := [r1.snd], attachments := attachTexOpt (attachTexOpt stA.attachments stA.wboitATexture r1.snd) stA.wboitBTexture r1.snd }
    else
      let res1 := stA.res.destroyFramebuffer (stA.wboitFramebuffers.headD 0)
      let res2 := res1.destroyFramebuffer (stA.wboitFramebuffers.getD 1 0)
      let r1 := res2.newFramebuffer
      let r2 := r1.fst.newFramebuffer
      { stA with res := r2.fst, wboitFramebuffers := [r1.snd, r2.snd], attachments := attachTexOpt (attachTexOpt stA.attachments stA.wboitATexture r1.snd) stA.wboitBTexture r2.snd }
  else st

/-- dispose (renderer.ts lines 651-653): the body is an empty TODO stub,
so disposal changes nothing. -/
def Renderer.dispose (st : RendererState) : RendererState := st

/-- The sequence of drawable ids drawn, in order, by a trace. -/
def drawnSeq (tr : List Event) : List Nat :=
  tr.filterMap (fun e => match e with
    | Event.draw i _ _ => some i
    | _ => none)

/-- The sequence of draws with the blend enable flag and blend function
in effect at each draw. -/
def drawBlend (tr : List Event) : List (Nat × Bool × BlendFuncSep) :=
  tr.filterMap (fun e => match e with
    | Event.draw i _ s => some (i, s.blend, s.blendFunc)
    | _ => none)

/-- Recognize the WBOIT resolve draw. -/
def isEval : Event → Bool
| Event.evaluateWboitDraw _ => true
| _ => false

/-- How many WBOIT resolve draws a trace performs. -/
def evaluateCount (tr : List Event) : Nat :=
  (tr.filter isEval).length

/-- Whether some draw of the trace went to an offscreen framebuffer
resource rather than the render target or default framebuffer. -/
def drawsToOffscreen (tr : List Event) : Bool :=
  tr.any (fun e => match e with
    | Event.draw _ _ s =>
      match s.boundFb with
      | FbBinding.fb _ => true
      | _ => false
    | _ => false)

/-- The textures attached to a framebuffer binding of a renderer state. -/
def attachedTextures (st : RendererState) : FbBinding → List Nat
| FbBinding.fb i => (st.attachments.lookup i).getD []
| _ => []

/-- Every texture whose contents a trace clears through a color-buffer
clear of a bound offscreen framebuffer. -/
def clearedColorTextures (st : RendererState) (tr : List Event) : List Nat :=
  tr.foldr (fun e acc => match e with
    | Event.clearCall b _ cb _ => if cb then attachedTextures st b ++ acc else acc
    | _ => acc) []

/-- Whether renderObject actually draws a drawable in a variant
(renderer.ts line 277 negated). -/
def shouldDraw (v : Variant) (r : Renderable) : Bool :=
  r.state.visible && !(!r.state.pickable && v.startsP)

/-- The arrays of a clip state have their fixed shader-facing sizes:
5 type slots, 15 position entries, 20 rotation entries, 15 scale
entries. -/
def ClipSized (c : ClipObjects) : Prop :=
  c.type.length = 5 ∧ c.position.length = 15 ∧ c.rotation.length = 20 ∧ c.scale.length = 15

/-- Modelled from the spec: the identity rotation quaternion (x, y, z,
w) = (0, 0, 0, 1), the value Quat.setAxisAngle yields at angle 0. -/
def quatIdentity : Quat4 := ⟨0, 0, 0, 1⟩

/-- A concrete axis-angle conversion used by the concrete examples (the
claims hold for every such function). -/
def saaSample : Vec3q → ℚ → Quat4 := fun _ _ => quatIdentity

/-- All capabilities present, drawBuffers included. -/
def capsAll : Caps := ⟨true, true, true, true⟩

/-- Float capabilities present but no multi draw-buffer support. -/
def capsNoDrawBuffers : Caps := ⟨false, true, true, true⟩

/-- No optional capability present. -/
def capsNone : Caps := ⟨false, false, false, false⟩

/-- Default renderable values: a plain mesh drawable. -/
def plainValues : RenderableValues :=
  { dRenderMode := none, dDoubleSided := none, hasReflection := false, dFlipSided := none }

/-- An opaque, visible, pickable drawable. -/
def rOpaque : Renderable :=
  ⟨1, ⟨true, true, true, true, false⟩, plainValues⟩

/-- A transparent drawable that writes depth. -/
def rTransWD : Renderable :=
  ⟨2, ⟨true, true, false, true, false⟩, plainValues⟩

/-- A transparent drawable that does not write depth. -/
def rTransNWD : Renderable :=
  ⟨3, ⟨true, true, false, false, false⟩, plainValues⟩

/-- An invisible drawable. -/
def rHidden : Renderable :=
  ⟨4, ⟨false, true, true, true, false⟩, plainValues⟩

/-- A visible but unpickable opaque drawable. -/
def rUnpickable : Renderable :=
  ⟨5, ⟨true, false, true, true, false⟩, plainValues⟩

/-- A color-only opaque drawable. -/
def rColorOnly : Renderable :=
  ⟨6, ⟨true, true, true, true, true⟩, plainValues⟩

/-- A transparent no-depth-write drawable used by the concrete WBOIT
examples. -/
def rAccum : Renderable :=
  ⟨7, ⟨true, true, false, false, false⟩, plainValues⟩

/-- A small scene exercising every flag combination. -/
def sampleScene : List Renderable :=
  [rTransNWD, rOpaque, rHidden, rTransWD, rUnpickable, rColorOnly]

/-- A clip object with no neutral component, for staleness examples. -/
def sphereObj : ClipObjectProps :=
  ⟨ClipType.sphere, ⟨2, 3, 4⟩, ⟨1, 0, 0⟩, 0, ⟨5, 6, 7⟩⟩

/-- Clip parameters with no objects. -/
def cpNone : ClipProps := ⟨ClipVariant.instanceV, []⟩

/-- Clip parameters with one sphere object. -/
def cpOne : ClipProps := ⟨ClipVariant.instanceV, [sphereObj]⟩

/-- Clip parameters with six objects, one more than the capacity. -/
def cpSix : ClipProps := ⟨ClipVariant.instanceV, List.replicate 6 sphereObj⟩

/-- Default properties with one configured clip object. -/
def propsOneClip : Props := { defaultProps with clip := cpOne }

/-- Default properties with six configured clip objects. -/
def props6Clip : Props := { defaultProps with clip := cpSix }

/-- A renderer over a context with no optional capability. -/
def stFallback : RendererState := Renderer.create saaSample capsNone true defaultProps

/-- A renderer over a fully capable context. -/
def stAllCaps : RendererState := Renderer.create saaSample capsAll true defaultProps

/-- A renderer with float capabilities but no drawBuffers extension. -/
def stNoDB : RendererState := Renderer.create saaSample capsNoDrawBuffers true defaultProps

/-- Render call arguments against a render target. -/
def mkArgs (rs : List Renderable) (v : Variant) (cl tb rt : Bool) : RenderArgs :=
  ⟨true, rs, v, cl, tb, rt⟩

/-- A color render of the sample scene with clearing. -/
def argsColorSample : RenderArgs := mkArgs sampleScene Variant.color true false false

/-- A color render of one transparent drawable, no clear, opaque pass. -/
def argsFallbackOne : RenderArgs := mkArgs [rAccum] Variant.color false false false

/-- A transparent sub-pass color render of one transparent drawable. -/
def argsWboitSub : RenderArgs := mkArgs [rAccum] Variant.color false false true

/-- A pick render of the sample scene. -/
def argsPickSample : RenderArgs := mkArgs sampleScene Variant.pick true false false

/-- A depth render of the sample scene. -/
def argsDepthSample : RenderArgs := mkArgs sampleScene Variant.depth true false false

/-- A pick render flagged as transparent sub-pass. -/
def argsPickTrans : RenderArgs := mkArgs sampleScene Variant.pick false false true

/-- Setting one list index leaves every other index unchanged. -/
theorem list_getD_set_ne {α : Type} : ∀ (l : List α) (i j : Nat) (v d : α), i ≠ j →
    (l.set i v).getD j d = l.getD j d := by
  intro l
  induction l with
  | nil => intro i j v d _; rfl
  | cons a t ih =>
    intro i j v d h
    cases i with
    | zero =>
      cases j with
      | zero => exact absurd rfl h
      | succ j => rfl
    | succ i =>
      cases j with
      | zero => rfl
      | succ j => exact ih i j v d (fun hh => h (by rw [hh]))

/-- getD inside a replicate returns the replicated element. -/
theorem getD_replicate_lt {α : Type} : ∀ (n i : Nat) (a d : α), i < n →
    (List.replicate n a).getD i d = a := by
  intro n
  induction n with
  | zero => intro i a d h; exact absurd h (Nat.not_lt_zero i)
  | succ n ih =>
    intro i a d h
    cases i with
    | zero => rfl
    | succ i => exact ih i a d (Nat.lt_of_succ_lt_succ h)

/-- In-bounds setGrow is plain List.set. -/
theorem setGrow_of_lt {α : Type} (pad : α) (l : List α) (i : Nat) (v : α) (h : i < l.length) :
    setGrow pad l i v = l.set i v := by
  simp [setGrow, h]

/-- In-bounds setGrow keeps the length. -/
theorem setGrow_length {α : Type} (pad : α) (l : List α) (i : Nat) (v : α) (h : i < l.length) :
    (setGrow pad l i v).length = l.length := by
  simp [setGrow, h]

/-- In-bounds setGrow leaves other indices unchanged. -/
theorem setGrow_getD_ne {α : Type} (pad : α) (l : List α) (i j : Nat) (v d : α)
    (h : i < l.length) (hne : i ≠ j) :
    (setGrow pad l i v).getD j d = l.getD j d := by
  rw [setGrow_of_lt pad l i v h]
  exact list_getD_set_ne l i j v d hne

/-- In-bounds writeVec3 keeps the length. -/
theorem writeVec3_length (arr : List ℚ) (off : Nat) (v : Vec3q) (h : off + 2 < arr.length) :
    (writeVec3 arr off v).length = arr.length := by
  have h0 : off < arr.length := by omega
  have e0 := setGrow_length (0 : ℚ) arr off v.x h0
  have h1 : off + 1 < (setGrow 0 arr off v.x).length := by omega
  have e1 := setGrow_length (0 : ℚ) (setGrow 0 arr off v.x) (off + 1) v.y h1
  have h2 : off + 2 < (setGrow 0 (setGrow 0 arr off v.x) (off + 1) v.y).length := by omega
  have e2 := setGrow_length (0 : ℚ) (setGrow 0 (setGrow 0 arr off v.x) (off + 1) v.y) (off + 2) v.z h2
  unfold writeVec3
  omega

/-- In-bounds writeVec3 leaves indices past the written block unchanged. -/
theorem writeVec3_getD_ge (arr : List ℚ) (off : Nat) (v : Vec3q) (j : Nat) (d : ℚ)
    (h : off + 2 < arr.length) (hj : off + 2 < j) :
    (writeVec3 arr off v).getD j d = arr.getD j d := by
  have h0 : off < arr.length := by omega
  have e0 := setGrow_length (0 : ℚ) arr off v.x h0
  have h1 : off + 1 < (setGrow 0 arr off v.x).length := by omega
  have e1 := setGrow_length (0 : ℚ) (setGrow 0 arr off v.x) (off + 1) v.y h1
  have h2 : off + 2 < (setGrow 0 (setGrow 0 arr off v.x) (off + 1) v.y).length := by omega
  unfold writeVec3
  rw [setGrow_getD_ne _ _ _ _ _ _ h2 (by omega),
    setGrow_getD_ne _ _ _ _ _ _ h1 (by omega),
    setGrow_getD_ne _ _ _ _ _ _ h0 (by omega)]

/-- In-bounds writeQuat keeps the length. -/
theorem writeQuat_length (arr : List ℚ) (off : Nat) (q : Quat4) (h : off + 3 < arr.length) :
    (writeQuat arr off q).length = arr.length := by
  have h0 : off < arr.length := by omega
  have e0 := setGrow_length (0 : ℚ) arr off q.x h0
  have h1 : off + 1 < (setGrow 0 arr off q.x).length := by omega
  have e1 := setGrow_length (0 : ℚ) (setGrow 0 arr off q.x) (off + 1) q.y h1
  have h2 : off + 2 < (setGrow 0 (setGrow 0 arr off q.x) (off + 1) q.y).length := by omega
  have e2 := setGrow_length (0 : ℚ) (setGrow 0 (setGrow 0 arr off q.x) (off + 1) q.y) (off + 2) q.z h2
  have h3 : off + 3 < (setGrow 0 (setGrow 0 (setGrow 0 arr off q.x) (off + 1) q.y) (off + 2) q.z).length := by omega
  have e3 := setGrow_length (0 : ℚ) (setGrow 0 (setGrow 0 (setGrow 0 arr off q.x) (off + 1) q.y) (off + 2) q.z) (off + 3) q.w h3
  unfold writeQuat
  omega

/-- In-bounds writeQuat leaves indices past the written block unchanged. -/
theorem writeQuat_getD_ge (arr : List ℚ) (off : Nat) (q : Quat4) (j : Nat) (d : ℚ)
    (h : off + 3 < arr.length) (hj : off + 3 < j) :
    (writeQuat arr off q).getD j d = arr.getD j d := by
  have h0 : off < arr.length := by omega
  have e0 := setGrow_length (0 : ℚ) arr off q.x h0
  have h1 : off + 1 < (setGrow 0 arr off q.x).length := by omega
  have e1 := setGrow_length (0 : ℚ) (setGrow 0 arr off q.x) (off + 1) q.y h1
  have h2 : off + 2 < (setGrow 0 (setGrow 0 arr off q.x) (off + 1) q.y).length := by omega
  have e2 := setGrow_length (0 : ℚ) (setGrow 0 (setGrow 0 arr off q.x) (off + 1) q.y) (off + 2) q.z h2
  have h3 : off + 3 < (setGrow 0 (setGrow 0 (setGrow 0 arr off q.x) (off + 1) q.y) (off + 2) q.z).length := by omega
  unfold writeQuat
  rw [setGrow_getD_ne _ _ _ _ _ _ h3 (by omega),
    setGrow_getD_ne _ _ _ _ _ _ h2 (by omega),
    setGrow_getD_ne _ _ _ _ _ _ h1 (by omega),
    setGrow_getD_ne _ _ _ _ _ _ h0 (by omega)]

/-- Writing the slot group of object i keeps the array sizes and leaves
every later slot unchanged. -/
theorem writeClipObject_spec (saa : Vec3q → ℚ → Quat4) (i : Nat) (o : ClipObjectProps)
    (c : ClipObjects) (hi : i < 5) (hsz : ClipSized c) :
    ClipSized (writeClipObject saa i o c)
    ∧ (∀ j d, i < j → (writeClipObject saa i o c).type.getD j d = c.type.getD j d)
    ∧ (∀ j d, i * 3 + 2 < j → (writeClipObject saa i o c).position.getD j d = c.position.getD j d)
    ∧ (∀ j d, i * 4 + 3 < j → (writeClipObject saa i o c).rotation.getD j d = c.rotation.getD j d)
    ∧ (∀ j d, i * 3 + 2 < j → (writeClipObject saa i o c).scale.getD j d = c.scale.getD j d) := by
  obtain ⟨hty, hpo, hro, hsc⟩ := hsz
  have hty5 : i < c.type.length := by omega
  have hpo5 : i * 3 + 2 < c.position.length := by omega
  have hro5 : i * 4 + 3 < c.rotation.length := by omega
  have hsc5 : i * 3 + 2 < c.scale.length := by omega
  refine ⟨⟨?_, ?_, ?_, ?_⟩, ?_, ?_, ?_, ?_⟩
  · show (setGrow 0 c.type i (ClipType.code o.type)).length = 5
    rw [setGrow_length _ _ _ _ hty5, hty]
  · show (writeVec3 c.position (i * 3) o.position).length = 15
    rw [writeVec3_length _ _ _ hpo5, hpo]
  · show (writeQuat c.rotation (i * 4) (saa o.rotationAxis o.rotationAngle)).length = 20
    rw [writeQuat_length _ _ _ hro5, hro]
  · show (writeVec3 c.scale (i * 3) o.scale).length = 15
    rw [writeVec3_length _ _ _ hsc5, hsc]
  · intro j d hj
    exact setGrow_getD_ne _ _ _ _ _ _ hty5 (by omega)
  · intro j d hj
    exact writeVec3_getD_ge _ _ _ _ _ hpo5 hj
  · intro j d hj
    exact writeQuat_getD_ge _ _ _ _ _ hro5 hj
  · intro j d hj
    exact writeVec3_getD_ge _ _ _ _ _ hsc5 hj

/-- The getClip write loop, run within capacity, keeps the array sizes
and leaves every slot at or past the configured range unchanged. -/
theorem clipWrite_frozen (saa : Vec3q → ℚ → Quat4) :
    ∀ (os : List ClipObjectProps) (i : Nat) (c : ClipObjects),
    ClipSized c → i + os.length ≤ 5 →
    ClipSized (clipWrite saa i os c)
    ∧ (∀ j d, i + os.length ≤ j → (clipWrite saa i os c).type.getD j d = c.type.getD j d)
    ∧ (∀ j d, (i + os.length) * 3 ≤ j → (clipWrite saa i os c).position.getD j d = c.position.getD j d)
    ∧ (∀ j d, (i + os.length) * 4 ≤ j → (clipWrite saa i os c).rotation.getD j d = c.rotation.getD j d)
    ∧ (∀ j d, (i + os.length) * 3 ≤ j → (clipWrite saa i os c).scale.getD j d = c.scale.getD j d) := by
  intro os
  induction os with
  | nil =>
    intro i c hsz _
    exact ⟨hsz, fun j d _ => rfl, fun j d _ => rfl, fun j d _ => rfl, fun j d _ => rfl⟩
  | cons o os ih =>
    intro i c hsz hb
    have hlen : (o :: os).length = os.length + 1 := rfl
    have hi : i < 5 := by omega
    obtain ⟨w_sz, w_ty, w_pos, w_rot, w_sc⟩ := writeClipObject_spec saa i o c hi hsz
    have hb2 : (i + 1) + os.length ≤ 5 := by omega
    obtain ⟨r_sz, r_ty, r_pos, r_rot, r_sc⟩ := ih (i + 1) (writeClipObject saa i o c) w_sz hb2
    have hstep : clipWrite saa i (o :: os) c = clipWrite saa (i + 1) os (writeClipObject saa i o c) := rfl
    rw [hstep, hlen]
    refine ⟨r_sz, ?_, ?_, ?_, ?_⟩
    · intro j d hj
      rw [r_ty j d (by omega), w_ty j d (by omega)]
    · intro j d hj
      rw [r_pos j d (by omega), w_pos j d (by omega)]
    · intro j d hj
      rw [r_rot j d (by omega), w_rot j d (by omega)]
    · intro j d hj
      rw [r_sc j d (by omega), w_sc j d (by omega)]

/-- The default arrays have the fixed sizes. -/
theorem clipDefaults_sized : ClipSized clipDefaults := by
  refine ⟨?_, ?_, ?_, ?_⟩ <;> simp [clipDefaults]

/-- C8 counterexample: the claim fails on the code at three concrete
inputs.  At construction with no configured clip object, the unused
rotation slots hold the zero quadruple (0,0,0,0) — its last component
differs from the identity quaternion component w = 1 that the claim
requires.  After setProps shrinks a one-object configuration to zero
objects, slot 0 of the type array still holds the stale sphere code 2
instead of the neutral plane code.  And with six configured objects
the type array grows to 6 entries, exceeding the claimed fixed
capacity of 5. -/
theorem clip_arrays_counterexample :
    ((Renderer.create saaSample capsAll true defaultProps).clip.objects.rotation.getD 3 0 ≠ quatIdentity.w)
    ∧ ((Renderer.setProps saaSample (Renderer.create saaSample capsAll true propsOneClip) (clipPartial cpNone)).clip.objects.count = 0
      ∧ (Renderer.setProps saaSample (Renderer.create saaSample capsAll true propsOneClip) (clipPartial cpNone)).clip.objects.type.getD 0 0 ≠ ClipType.code ClipType.plane)
    ∧ (Renderer.create saaSample capsAll true props6Clip).clip.objects.type.length ≠ 5 := by
  refine ⟨by decide, ⟨by decide, by decide⟩, by decide⟩

/-- C8 (amended): for every clip parameter update with at most 5
configured objects, the derived arrays keep their fixed capacity
(type 5, position 15, rotation 20, scale 15) and the recorded count
equals the number of configured objects.  At construction (no previous
clip state) every slot at or past the configured count holds the
construction defaults: type = plane (code 1), scale components 1,
position components 0, and the zero quadruple (0,0,0,0) — not the
identity quaternion — in the rotation array.  When updated through
setProps over an existing clip state, slots at or past the new count
retain their previous contents rather than being reset to neutral
defaults. -/
theorem clip_arrays_amended :
    (∀ saa props, props.objects.length ≤ 5 →
      ((getClip saa props none).objects.count = props.objects.length
        ∧ ClipSized (getClip saa props none).objects)
      ∧ ∀ c, ClipSized c.objects →
        ((getClip saa props (some c)).objects.count = props.objects.length
          ∧ ClipSized (getClip saa props (some c)).objects))
    ∧ (∀ saa props i, props.objects.length ≤ 5 → props.objects.length ≤ i → i < 5 →
        (getClip saa props none).objects.type.getD i 0 = 1
        ∧ (∀ k, k < 3 → (getClip saa props none).objects.position.getD (i * 3 + k) 0 = 0)
        ∧ (∀ k, k < 4 → (getClip saa props none).objects.rotation.getD (i * 4 + k) 0 = 0)
        ∧ (∀ k, k < 3 → (getClip saa props none).objects.scale.getD (i * 3 + k) 0 = 1))
    ∧ (∀ saa props c i, props.objects.length ≤ 5 → ClipSized c.objects → props.objects.length ≤ i →
        (getClip saa props (some c)).objects.type.getD i 0 = c.objects.type.getD i 0
        ∧ (∀ k, k < 3 → (getClip saa props (some c)).objects.position.getD (i * 3 + k) 0 = c.objects.position.getD (i * 3 + k) 0)
        ∧ (∀ k, k < 4 → (getClip saa props (some c)).objects.rotation.getD (i * 4 + k) 0 = c.objects.rotation.getD (i * 4 + k) 0)
        ∧ (∀ k, k < 3 → (getClip saa props (some c)).objects.scale.getD (i * 3 + k) 0 = c.objects.scale.getD (i * 3 + k) 0)) := by
  have hmain : ∀ (saa : Vec3q → ℚ → Quat4) (props : ClipProps) (base : ClipObjects),
      ClipSized base → props.objects.length ≤ 5 →
      ClipSized (clipWrite saa 0 props.objects base)
      ∧ (∀ j d, props.objects.length ≤ j →
          (clipWrite saa 0 props.objects base).type.getD j d = base.type.getD j d)
      ∧ (∀ j d, props.objects.length * 3 ≤ j →
          (clipWrite saa 0 props.objects base).position.getD j d = base.position.getD j d)
      ∧ (∀ j d, props.objects.length * 4 ≤ j →
          (clipWrite saa 0 props.objects base).rotation.getD j d = base.rotation.getD j d)
      ∧ (∀ j d, props.objects.length * 3 ≤ j →
          (clipWrite saa 0 props.objects base).scale.getD j d = base.scale.getD j d) := by
    intro saa props base hsz hb
    have h := clipWrite_frozen saa props.objects 0 base hsz (by omega)
    simpa using h
  have hfield : ∀ (saa : Vec3q → ℚ → Quat4) (props : ClipProps) (prev : Option Clip),
      (getClip saa props prev).objects.type = (clipWrite saa 0 props.objects (match prev with | some c => c.objects | none => clipDefaults)).type
      ∧ (getClip saa props prev).objects.position = (clipWrite saa 0 props.objects (match prev with | some c => c.objects | none => clipDefaults)).position
      ∧ (getClip saa props prev).objects.rotation = (clipWrite saa 0 props.objects (match prev with | some c => c.objects | none => clipDefaults)).rotation
      ∧ (getClip saa props prev).objects.scale = (clipWrite saa 0 props.objects (match prev with | some c => c.objects | none => clipDefaults)).scale
      ∧ (getClip saa props prev).objects.count = props.objects.length := by
    intro saa props prev
    exact ⟨rfl, rfl, rfl, rfl, rfl⟩
  refine ⟨?_, ?_, ?_⟩
  · intro saa props hb
    constructor
    · obtain ⟨hsz, _, _, _, _⟩ := hmain saa props clipDefaults clipDefaults_sized hb
      obtain ⟨e1, e2, e3, e4, e5⟩ := hfield saa props none
      exact ⟨e5, by rw [show ClipSized (getClip saa props none).objects = ((getClip saa props none).objects.type.length = 5 ∧ (getClip saa props none).objects.position.length = 15 ∧ (getClip saa props none).objects.rotation.length = 20 ∧ (getClip saa props none).objects.scale.length = 15) from rfl, e1, e2, e3, e4]; exact hsz⟩
    · intro c hc
      obtain ⟨hsz, _, _, _, _⟩ := hmain saa props c.objects hc hb
      obtain ⟨e1, e2, e3, e4, e5⟩ := hfield saa props (some c)
      exact ⟨e5, by rw [show ClipSized (getClip saa props (some c)).objects = ((getClip saa props (some c)).objects.type.length = 5 ∧ (getClip saa props (some c)).objects.position.length = 15 ∧ (getClip saa props (some c)).objects.rotation.length = 20 ∧ (getClip saa props (some c)).objects.scale.length = 15) from rfl, e1, e2, e3, e4]; exact hsz⟩
  · intro saa props i hb hi hi5
    obtain ⟨_, hty, hpo, hro, hsc⟩ := hmain saa props clipDefaults clipDefaults_sized hb
    obtain ⟨e1, e2, e3, e4, _⟩ := hfield saa props none
    refine ⟨?_, ?_, ?_, ?_⟩
    · rw [e1, hty i 0 hi]
      exact getD_replicate_lt 5 i 1 0 hi5
    · intro k hk
      rw [e2, hpo (i * 3 + k) 0 (by omega)]
      exact getD_replicate_lt (5 * 3) (i * 3 + k) 0 0 (by omega)
    · intro k hk
      rw [e3, hro (i * 4 + k) 0 (by omega)]
      exact getD_replicate_lt (5 * 4) (i * 4 + k) 0 0 (by omega)
    · intro k hk
      rw [e4, hsc (i * 3 + k) 0 (by omega)]
      exact getD_replicate_lt (5 * 3) (i * 3 + k) 1 0 (by omega)
  · intro saa props c i hb hc hi
    obtain ⟨_, hty, hpo, hro, hsc⟩ := hmain saa props c.objects hc hb
    obtain ⟨e1, e2, e3, e4, _⟩ := hfield saa props (some c)
    refine ⟨?_, ?_, ?_, ?_⟩
    · rw [e1]; exact hty i 0 hi
    · intro k hk
      rw [e2]; exact hpo (i * 3 + k) 0 (by omega)
    · intro k hk
      rw [e3]; exact hro (i * 4 + k) 0 (by omega)
    · intro k hk
      rw [e4]; exact hsc (i * 3 + k) 0 (by omega)

/-- The GPU state setup of a draw changes no blend state and no
framebuffer binding. -/
theorem drawGLState_preserves (fd : Bool) (r : Renderable) (s : GLState) :
    (drawGLState fd r s).blend = s.blend
    ∧ (drawGLState fd r s).blendFunc = s.blendFunc
    ∧ (drawGLState fd r s).boundFb = s.boundFb := by
  unfold drawGLState
  cases hm : r.values.dRenderMode with
  | some m => dsimp only; split_ifs <;> exact ⟨rfl, rfl, rfl⟩
  | none =>
    cases hd : r.values.dDoubleSided <;> cases hf : r.values.dFlipSided <;> dsimp only <;>
      first
      | exact ⟨rfl, rfl, rfl⟩
      | (split_ifs <;> exact ⟨rfl, rfl, rfl⟩)

/-- The trace of renderObject: one draw event when the drawable passes
the visibility and pickability gate, nothing otherwise. -/
theorem renderObject_snd (fd : Bool) (r : Renderable) (v : Variant) (s : GLState) :
    (renderObject fd r v s).snd
      = if shouldDraw v r then [Event.draw r.id v (drawGLState fd r s)] else [] := by
  cases hvis : r.state.visible <;> cases hp : r.state.pickable <;> cases hsp : v.startsP <;>
    simp [renderObject, shouldDraw, hvis, hp, hsp]

/-- renderObject changes no blend state and no framebuffer binding. -/
theorem renderObject_fst (fd : Bool) (r : Renderable) (v : Variant) (s : GLState) :
    (renderObject fd r v s).fst.blend = s.blend
    ∧ (renderObject fd r v s).fst.blendFunc = s.blendFunc
    ∧ (renderObject fd r v s).fst.boundFb = s.boundFb := by
  unfold renderObject
  split
  · exact ⟨rfl, rfl, rfl⟩
  · exact drawGLState_preserves fd r s

/-- drawBlend distributes over concatenation. -/
theorem drawBlend_append (a b : List Event) :
    drawBlend (a ++ b) = drawBlend a ++ drawBlend b := by
  simp [drawBlend]

/-- drawnSeq distributes over concatenation. -/
theorem drawnSeq_append (a b : List Event) :
    drawnSeq (a ++ b) = drawnSeq a ++ drawnSeq b := by
  simp [drawnSeq]

/-- drawnSeq is the first projection of drawBlend. -/
theorem drawnSeq_eq_drawBlend (tr : List Event) :
    drawnSeq tr = (drawBlend tr).map Prod.fst := by
  induction tr with
  | nil => rfl
  | cons e t ih => cases e <;> simp [drawnSeq, drawBlend] at ih ⊢ <;> exact ih

/-- One bucket loop: its draws are the drawables passing the bucket
predicate and the renderObject gate, in list order, each drawn under
the blend state the loop was entered with; the loop changes no blend
state and no framebuffer binding, and emits only draw events of its
variant, all bound to the entry framebuffer. -/
theorem renderLoop_spec (fd : Bool) (pred : RState → Bool) (v : Variant) :
    ∀ (rs : List Renderable) (s : GLState),
    drawBlend (renderLoop fd pred v rs s).snd
      = (rs.filter (fun r => pred r.state && shouldDraw v r)).map (fun r => (r.id, s.blend, s.blendFunc))
    ∧ (renderLoop fd pred v rs s).fst.blend = s.blend
    ∧ (renderLoop fd pred v rs s).fst.blendFunc = s.blendFunc
    ∧ (renderLoop fd pred v rs s).fst.boundFb = s.boundFb
    ∧ (∀ e ∈ (renderLoop fd pred v rs s).snd,
        ∃ i sv, e = Event.draw i v sv ∧ sv.boundFb = s.boundFb) := by
  intro rs
  induction rs with
  | nil =>
    intro s
    refine ⟨rfl, rfl, rfl, rfl, ?_⟩
    intro e he
    exact absurd he (List.not_mem_nil e)
  | cons r rs ih =>
    intro s
    cases hp : pred r.state with
    | false =>
      have hstep : renderLoop fd pred v (r :: rs) s = renderLoop fd pred v rs s := by
        simp [renderLoop, hp]
      have hfil : (r :: rs).filter (fun r => pred r.state && shouldDraw v r)
          = rs.filter (fun r => pred r.state && shouldDraw v r) := by
        simp [List.filter_cons, hp]
      rw [hstep, hfil]
      exact ih s
    | true =>
      obtain ⟨ro1, ro2, ro3⟩ := renderObject_fst fd r v s
      obtain ⟨g1, g2, g3⟩ := drawGLState_preserves fd r s
      obtain ⟨ih1, ih2, ih3, ih4, ih5⟩ := ih (renderObject fd r v s).fst
      have hstep : renderLoop fd pred v (r :: rs) s
          = ((renderLoop fd pred v rs (renderObject fd r v s).fst).fst,
             (renderObject fd r v s).snd ++ (renderLoop fd pred v rs (renderObject fd r v s).fst).snd) := by
        simp [renderLoop, hp]
      rw [hstep]
      refine ⟨?_, ih2.trans ro1, ih3.trans ro2, ih4.trans ro3, ?_⟩
      · rw [drawBlend_append, renderObject_snd, ih1, ro1, ro2]
        cases hs : shouldDraw v r with
        | false => simp [List.filter_cons, hp, hs, drawBlend]
        | true => simp [List.filter_cons, hp, hs, drawBlend, g1, g2]
      · intro e he
        rcases List.mem_append.mp he with h1 | h2
        · rw [renderObject_snd] at h1
          cases hs : shouldDraw v r with
          | false => rw [hs] at h1; exact absurd h1 (List.not_mem_nil e)
          | true =>
            rw [hs] at h1
            rcases List.mem_singleton.mp h1 with rfl
            exact ⟨r.id, drawGLState fd r s, rfl, g3⟩
        · obtain ⟨i, sv, he2, hb⟩ := ih5 e h2
          exact ⟨i, sv, he2, hb.trans ro3⟩

/-- The draw sequence of one bucket loop. -/
theorem renderLoop_drawnSeq (fd : Bool) (pred : RState → Bool) (v : Variant)
    (rs : List Renderable) (s : GLState) :
    drawnSeq (renderLoop fd pred v rs s).snd
      = (rs.filter (fun r => pred r.state && shouldDraw v r)).map Renderable.id := by
  rw [drawnSeq_eq_drawBlend, (renderLoop_spec fd pred v rs s).1, List.map_map]
  rfl

/-- A bucket loop performs no WBOIT resolve draw. -/
theorem renderLoop_filter_eval (fd : Bool) (pred : RState → Bool) (v : Variant)
    (rs : List Renderable) (s : GLState) :
    ((renderLoop fd pred v rs s).snd).filter isEval = [] := by
  rw [List.filter_eq_nil_iff]
  intro e he
  obtain ⟨i, sv, rfl, _⟩ := (renderLoop_spec fd pred v rs s).2.2.2.2 e he
  simp [isEval]

/-- In the color variant the renderObject gate is just visibility. -/
theorem shouldDraw_color (r : Renderable) :
    shouldDraw Variant.color r = r.state.visible := by
  simp [shouldDraw, Variant.startsP]

/-- In the pick variant the gate is visibility and pickability. -/
theorem shouldDraw_pick (r : Renderable) :
    shouldDraw Variant.pick r = (r.state.visible && r.state.pickable) := by
  cases hp : r.state.pickable <;> simp [shouldDraw, Variant.startsP, hp]

/-- In the depth variant the gate is just visibility. -/
theorem shouldDraw_depth (r : Renderable) :
    shouldDraw Variant.depth r = r.state.visible := by
  simp [shouldDraw, Variant.startsP]

/-- The three bucket loops draw the opaque bucket, then the
depth-writing transparent bucket, then the non-depth-writing
transparent bucket, each in scene list order (visible drawables
only). -/
theorem threeBuckets_drawnSeq (fd : Bool) (rs : List Renderable) (s : GLState) :
    drawnSeq (threeBuckets fd rs s).snd
      = (rs.filter (fun r => r.state.opaqueFlag && r.state.visible)).map Renderable.id
        ++ (rs.filter (fun r => (!r.state.opaqueFlag && r.state.writeDepth) && r.state.visible)).map Renderable.id
        ++ (rs.filter (fun r => (!r.state.opaqueFlag && !r.state.writeDepth) && r.state.visible)).map Renderable.id := by
  unfold threeBuckets
  simp only [drawnSeq_append, renderLoop_drawnSeq, shouldDraw_color]

/-- The three bucket loops emit only draw events. -/
theorem threeBuckets_filter_eval (fd : Bool) (rs : List Renderable) (s : GLState) :
    ((threeBuckets fd rs s).snd).filter isEval = [] := by
  unfold threeBuckets
  simp only [List.filter_append, renderLoop_filter_eval, List.append_nil]

/-- The draw sequence of the non-WBOIT color path: same three buckets. -/
theorem fallbackColorPass_drawnSeq (fd : Bool) (rs : List Renderable) (s : GLState) :
    drawnSeq (fallbackColorPass fd rs s).snd
      = (rs.filter (fun r => r.state.opaqueFlag && r.state.visible)).map Renderable.id
        ++ (rs.filter (fun r => (!r.state.opaqueFlag && r.state.writeDepth) && r.state.visible)).map Renderable.id
        ++ (rs.filter (fun r => (!r.state.opaqueFlag && !r.state.writeDepth) && r.state.visible)).map Renderable.id := by
  unfold fallbackColorPass
  simp only [drawnSeq_append, renderLoop_drawnSeq, shouldDraw_color]

/-- Blend state at every draw of the non-WBOIT color path: the opaque
bucket draws with the entry blend state, both transparent buckets draw
with blending enabled under the single fallback blend function. -/
theorem fallbackColorPass_drawBlend (fd : Bool) (rs : List Renderable) (s : GLState) :
    drawBlend (fallbackColorPass fd rs s).snd
      = (rs.filter (fun r => r.state.opaqueFlag && r.state.visible)).map (fun r => (r.id, s.blend, s.blendFunc))
        ++ (rs.filter (fun r => (!r.state.opaqueFlag && r.state.writeDepth) && r.state.visible)).map (fun r => (r.id, true, fallbackBlendFunc))
        ++ (rs.filter (fun r => (!r.state.opaqueFlag && !r.state.writeDepth) && r.state.visible)).map (fun r => (r.id, true, fallbackBlendFunc)) := by
  unfold fallbackColorPass
  obtain ⟨h11, h12, h13, h14, h15⟩ :=
    renderLoop_spec fd (fun st => st.opaqueFlag) Variant.color rs s
  obtain ⟨h21, h22, h23, h24, h25⟩ :=
    renderLoop_spec fd (fun st => !st.opaqueFlag && st.writeDepth) Variant.color rs
      { (renderLoop fd (fun st => st.opaqueFlag) Variant.color rs s).fst with
        blendFunc := fallbackBlendFunc, blend := true }
  obtain ⟨h31, _, _, _, _⟩ :=
    renderLoop_spec fd (fun st => !st.opaqueFlag && !st.writeDepth) Variant.color rs
      (renderLoop fd (fun st => !st.opaqueFlag && st.writeDepth) Variant.color rs
        { (renderLoop fd (fun st => st.opaqueFlag) Variant.color rs s).fst with
          blendFunc := fallbackBlendFunc, blend := true }).fst
  simp only [drawBlend_append, h11, h21, h31, h22, h23, shouldDraw_color]

/-- The non-WBOIT color path emits only draw events (no resolve). -/
theorem fallbackColorPass_filter_eval (fd : Bool) (rs : List Renderable) (s : GLState) :
    ((fallbackColorPass fd rs s).snd).filter isEval = [] := by
  unfold fallbackColorPass
  simp only [List.filter_append, renderLoop_filter_eval, List.append_nil]

/-- The draw sequence of the WBOIT transparent sub-pass: the same three
buckets (the clear and resolve events are not scene draws). -/
theorem wboitSubpass_drawnSeq (st : RendererState) (targetFb : FbBinding)
    (rs : List Renderable) (s : GLState) :
    drawnSeq (wboitSubpass st targetFb rs s).snd
      = (rs.filter (fun r => r.state.opaqueFlag && r.state.visible)).map Renderable.id
        ++ (rs.filter (fun r => (!r.state.opaqueFlag && r.state.writeDepth) && r.state.visible)).map Renderable.id
        ++ (rs.filter (fun r => (!r.state.opaqueFlag && !r.state.writeDepth) && r.state.visible)).map Renderable.id := by
  unfold wboitSubpass
  rw [drawnSeq_append, drawnSeq_append]
  rw [threeBuckets_drawnSeq]
  have hclear : drawnSeq [Event.clearCall (FbBinding.fb (st.wboitFramebuffers.headD 0)) ⟨0, 0, 0, 1⟩ true false] = [] := rfl
  have heval : ∀ s4 : GLState, drawnSeq (if st.hasEvaluateWboit then [Event.evaluateWboitDraw s4] else []) = [] := by
    intro s4
    cases st.hasEvaluateWboit <;> rfl
  simp only [drawnSeq] at hclear heval ⊢
  rw [hclear, heval]
  simp

/-- The WBOIT sub-pass performs exactly one resolve draw when the
resolve renderable exists and none otherwise. -/
theorem wboitSubpass_evalCount (st : RendererState) (targetFb : FbBinding)
    (rs : List Renderable) (s : GLState) :
    evaluateCount (wboitSubpass st targetFb rs s).snd
      = if st.hasEvaluateWboit then 1 else 0 := by
  unfold wboitSubpass evaluateCount
  simp only [List.filter_append, threeBuckets_filter_eval]
  cases st.hasEvaluateWboit <;> simp [isEval]

/-- The draw sequence of the pick and depth path. -/
theorem pickDepthPass_drawnSeq (fd : Bool) (v : Variant) (rs : List Renderable)
    (rt : Bool) (s : GLState) :
    drawnSeq (pickDepthPass fd v rs rt s).snd
      = if rt then [] else (rs.filter (fun r => !r.state.colorOnly && shouldDraw v r)).map Renderable.id := by
  unfold pickDepthPass
  cases rt with
  | false => simp [renderLoop_drawnSeq]
  | true => simp [drawnSeq]

/-- The pick and depth path emits only draw events. -/
theorem pickDepthPass_filter_eval (fd : Bool) (v : Variant) (rs : List Renderable)
    (rt : Bool) (s : GLState) :
    ((pickDepthPass fd v rs rt s).snd).filter isEval = [] := by
  unfold pickDepthPass
  cases rt with
  | false => simp [renderLoop_filter_eval]
  | true => simp

/-- drawnSeq of the empty trace. -/
theorem drawnSeq_nil : drawnSeq [] = [] := rfl

/-- A flush is not a draw. -/
theorem drawnSeq_flush : drawnSeq [Event.flush] = [] := rfl

/-- A buffer clear is not a draw. -/
theorem drawnSeq_clear (b : FbBinding) (c : Rgba) (cb db : Bool) :
    drawnSeq [Event.clearCall b c cb db] = [] := rfl

/-- drawBlend of the empty trace. -/
theorem drawBlend_nil : drawBlend [] = [] := rfl

/-- drawBlend ignores a flush. -/
theorem drawBlend_flush : drawBlend [Event.flush] = [] := rfl

/-- drawBlend ignores a buffer clear. -/
theorem drawBlend_clear (b : FbBinding) (c : Rgba) (cb db : Bool) :
    drawBlend [Event.clearCall b c cb db] = [] := rfl

/-- A leading buffer clear drops out of drawnSeq. -/
theorem drawnSeq_cons_clear (b : FbBinding) (c : Rgba) (cb db : Bool) (t : List Event) :
    drawnSeq (Event.clearCall b c cb db :: t) = drawnSeq t := rfl

/-- A leading flush drops out of drawnSeq. -/
theorem drawnSeq_cons_flush (t : List Event) :
    drawnSeq (Event.flush :: t) = drawnSeq t := rfl

/-- A leading buffer clear drops out of drawBlend. -/
theorem drawBlend_cons_clear (b : FbBinding) (c : Rgba) (cb db : Bool) (t : List Event) :
    drawBlend (Event.clearCall b c cb db :: t) = drawBlend t := rfl

/-- A leading flush drops out of drawBlend. -/
theorem drawBlend_cons_flush (t : List Event) :
    drawBlend (Event.flush :: t) = drawBlend t := rfl

/-- A leading buffer clear drops out of evaluateCount. -/
theorem evaluateCount_cons_clear (b : FbBinding) (c : Rgba) (cb db : Bool) (t : List Event) :
    evaluateCount (Event.clearCall b c cb db :: t) = evaluateCount t := rfl

/-- A leading flush drops out of evaluateCount. -/
theorem evaluateCount_cons_flush (t : List Event) :
    evaluateCount (Event.flush :: t) = evaluateCount t := rfl

/-- evaluateCount distributes over concatenation. -/
theorem evaluateCount_append (a b : List Event) :
    evaluateCount (a ++ b) = evaluateCount a + evaluateCount b := by
  simp [evaluateCount, List.filter_append]

/-- evaluateCount of the empty trace. -/
theorem evaluateCount_nil : evaluateCount [] = 0 := rfl

/-- A flush is not a resolve draw. -/
theorem evaluateCount_flush : evaluateCount [Event.flush] = 0 := rfl

/-- A buffer clear is not a resolve draw. -/
theorem evaluateCount_clear (b : FbBinding) (c : Rgba) (cb db : Bool) :
    evaluateCount [Event.clearCall b c cb db] = 0 := rfl

/-- The three bucket loops perform no resolve draw. -/
theorem threeBuckets_evalCount (fd : Bool) (rs : List Renderable) (s : GLState) :
    evaluateCount (threeBuckets fd rs s).snd = 0 := by
  unfold evaluateCount
  rw [threeBuckets_filter_eval]
  rfl

/-- The non-WBOIT color path performs no resolve draw. -/
theorem fallbackColorPass_evalCount (fd : Bool) (rs : List Renderable) (s : GLState) :
    evaluateCount (fallbackColorPass fd rs s).snd = 0 := by
  unfold evaluateCount
  rw [fallbackColorPass_filter_eval]
  rfl

/-- The pick and depth path performs no resolve draw. -/
theorem pickDepthPass_evalCount (fd : Bool) (v : Variant) (rs : List Renderable)
    (rt : Bool) (s : GLState) :
    evaluateCount (pickDepthPass fd v rs rt s).snd = 0 := by
  unfold evaluateCount
  rw [pickDepthPass_filter_eval]
  rfl

/-- Blend state of the three bucket loops run without a blend change:
every bucket draws under the entry blend state. -/
theorem threeBuckets_drawBlend (fd : Bool) (rs : List Renderable) (s : GLState) :
    drawBlend (threeBuckets fd rs s).snd
      = (rs.filter (fun r => r.state.opaqueFlag && r.state.visible)).map (fun r => (r.id, s.blend, s.blendFunc))
        ++ (rs.filter (fun r => (!r.state.opaqueFlag && r.state.writeDepth) && r.state.visible)).map (fun r => (r.id, s.blend, s.blendFunc))
        ++ (rs.filter (fun r => (!r.state.opaqueFlag && !r.state.writeDepth) && r.state.visible)).map (fun r => (r.id, s.blend, s.blendFunc)) := by
  unfold threeBuckets
  obtain ⟨h11, h12, h13, h14, h15⟩ :=
    renderLoop_spec fd (fun st => st.opaqueFlag) Variant.color rs s
  obtain ⟨h21, h22, h23, h24, h25⟩ :=
    renderLoop_spec fd (fun st => !st.opaqueFlag && st.writeDepth) Variant.color rs
      (renderLoop fd (fun st => st.opaqueFlag) Variant.color rs s).fst
  obtain ⟨h31, _, _, _, _⟩ :=
    renderLoop_spec fd (fun st => !st.opaqueFlag && !st.writeDepth) Variant.color rs
      (renderLoop fd (fun st => !st.opaqueFlag && st.writeDepth) Variant.color rs
        (renderLoop fd (fun st => st.opaqueFlag) Variant.color rs s).fst).fst
  simp only [drawBlend_append, h11, h21, h31, h12, h13, h22, h23, shouldDraw_color]

/-- C1: in every color-variant render call the drawables are drawn in
exactly three strict buckets — first every drawn drawable with
opaque = true, then every drawn drawable with opaque = false and
writeDepth = true, then every drawn drawable with opaque = false and
writeDepth = false — with each bucket traversed in the scene list
order; a drawable with visible = false is skipped entirely
(renderer.ts line 277).  The draw sequence is given by this equation
as a function of the renderables list alone, independent of the
camera, the ambient GL state and the remaining arguments, so it is
deterministic, and each bucket contains exactly the drawables whose
flags satisfy its predicate.  This holds across all three color
sub-paths (WBOIT sub-pass, WBOIT opaque pass, fallback). -/
theorem color_variant_draw_order (st : RendererState) (gls : GLState) (a : RenderArgs)
    (hv : a.variant = Variant.color) :
    drawnSeq (Renderer.render st gls a).snd.snd
      = (a.renderables.filter (fun r => r.state.opaqueFlag && r.state.visible)).map Renderable.id
        ++ (a.renderables.filter (fun r => (!r.state.opaqueFlag && r.state.writeDepth) && r.state.visible)).map Renderable.id
        ++ (a.renderables.filter (fun r => (!r.state.opaqueFlag && !r.state.writeDepth) && r.state.visible)).map Renderable.id := by
  unfold Renderer.render
  cases hw : st.enableWboit with
  | true =>
    cases hrt : a.renderTransparent with
    | true =>
      cases hc : a.clear <;>
        simp [hv, hw, hrt, hc, drawnSeq_append, drawnSeq_clear, drawnSeq_flush, drawnSeq_cons_clear, drawnSeq_cons_flush, drawnSeq_nil,
          wboitSubpass_drawnSeq]
    | false =>
      cases hc : a.clear <;>
        simp [hv, hw, hrt, hc, drawnSeq_append, drawnSeq_clear, drawnSeq_flush, drawnSeq_cons_clear, drawnSeq_cons_flush, drawnSeq_nil,
          threeBuckets_drawnSeq]
  | false =>
    cases hc : a.clear <;>
      simp [hv, hw, hc, drawnSeq_append, drawnSeq_clear, drawnSeq_flush, drawnSeq_cons_clear, drawnSeq_cons_flush, drawnSeq_nil,
        fallbackColorPass_drawnSeq]

/-- C1 witness: the bucket order on a concrete scene — scene order is
[3, 1, 4, 2, 5, 6] and the draw order is opaque [1, 5, 6], then
depth-writing transparent [2], then non-depth-writing transparent
[3]. -/
theorem color_variant_draw_order_witness :
    drawnSeq (Renderer.render stFallback initGLState argsColorSample).snd.snd = [1, 5, 6, 2, 3] :=
  (color_variant_draw_order stFallback initGLState argsColorSample rfl).trans (by decide)

/-- C2 counterexample: the claim as stated is false on the code at two
concrete inputs.  With OIT unavailable, the no-depth-write transparent
drawable 7 is drawn under blendFuncSeparate(SRC_ALPHA,
ONE_MINUS_SRC_ALPHA, ONE, ONE) — the source RGB factor is SRC_ALPHA,
not the claimed ONE — because renderer.ts line 500 issues a single
blend function for both transparent buckets.  And with OIT available
but renderTransparent = false (also a path the claim covers), the same
drawable is drawn with blending disabled and the untouched ambient
blend function, not with any alpha blending. -/
theorem fallback_blend_counterexample :
    (drawBlend (Renderer.render stFallback initGLState argsFallbackOne).snd.snd
        = [(7, true, fallbackBlendFunc)]
      ∧ fallbackBlendFunc.srcRGB ≠ BlendFactor.ONE
      ∧ fallbackBlendFunc.dstRGB ≠ BlendFactor.ONE)
    ∧ drawBlend (Renderer.render stAllCaps initGLState argsFallbackOne).snd.snd
        = [(7, false, initGLState.blendFunc)] := by
  exact ⟨⟨by decide, by decide, by decide⟩, by decide⟩

/-- C2 (amended): in the color variant with OIT unavailable, opaque
drawables are drawn with blending disabled (under the ambient blend
function, which is never read), and both transparent buckets —
writeDepth first, then no-depth-write — are drawn with blending
enabled under the one blend function
blendFuncSeparate(SRC_ALPHA, ONE_MINUS_SRC_ALPHA, ONE, ONE), whose RGB
factors are SRC_ALPHA/ONE_MINUS_SRC_ALPHA and whose alpha factors are
ONE/ONE; no extra pass (no resolve draw) is performed.  When OIT is
available but the call is not a transparent sub-pass, all three
buckets are drawn with blending disabled and no resolve draw. -/
theorem fallback_blend_amended :
    (∀ (st : RendererState) (gls : GLState) (a : RenderArgs),
      st.enableWboit = false → a.variant = Variant.color →
      drawBlend (Renderer.render st gls a).snd.snd
        = (a.renderables.filter (fun r => r.state.opaqueFlag && r.state.visible)).map (fun r => (r.id, false, gls.blendFunc))
          ++ (a.renderables.filter (fun r => (!r.state.opaqueFlag && r.state.writeDepth) && r.state.visible)).map (fun r => (r.id, true, fallbackBlendFunc))
          ++ (a.renderables.filter (fun r => (!r.state.opaqueFlag && !r.state.writeDepth) && r.state.visible)).map (fun r => (r.id, true, fallbackBlendFunc))
      ∧ evaluateCount (Renderer.render st gls a).snd.snd = 0)
    ∧ (∀ (st : RendererState) (gls : GLState) (a : RenderArgs),
      st.enableWboit = true → a.variant = Variant.color → a.renderTransparent = false →
      drawBlend (Renderer.render st gls a).snd.snd
        = (a.renderables.filter (fun r => r.state.opaqueFlag && r.state.visible)).map (fun r => (r.id, false, gls.blendFunc))
          ++ (a.renderables.filter (fun r => (!r.state.opaqueFlag && r.state.writeDepth) && r.state.visible)).map (fun r => (r.id, false, gls.blendFunc))
          ++ (a.renderables.filter (fun r => (!r.state.opaqueFlag && !r.state.writeDepth) && r.state.visible)).map (fun r => (r.id, false, gls.blendFunc))
      ∧ evaluateCount (Renderer.render st gls a).snd.snd = 0) := by
  constructor
  · intro st gls a hw hv
    constructor
    · unfold Renderer.render
      cases hc : a.clear <;>
        simp [hv, hw, hc, drawBlend_append, drawBlend_clear, drawBlend_flush, drawBlend_cons_clear, drawBlend_cons_flush, drawBlend_nil,
          fallbackColorPass_drawBlend]
    · unfold Renderer.render
      cases hc : a.clear <;>
        simp [hv, hw, hc, evaluateCount_append, evaluateCount_clear, evaluateCount_flush, evaluateCount_cons_clear, evaluateCount_cons_flush, evaluateCount_nil,
          fallbackColorPass_evalCount]
  · intro st gls a hw hv hrt
    constructor
    · unfold Renderer.render
      cases hc : a.clear <;>
        simp [hv, hw, hrt, hc, drawBlend_append, drawBlend_clear, drawBlend_flush, drawBlend_cons_clear, drawBlend_cons_flush, drawBlend_nil,
          threeBuckets_drawBlend]
    · unfold Renderer.render
      cases hc : a.clear <;>
        simp [hv, hw, hrt, hc, evaluateCount_append, evaluateCount_clear, evaluateCount_flush, evaluateCount_cons_clear, evaluateCount_cons_flush, evaluateCount_nil,
          threeBuckets_evalCount]

/-- C2 witness: the amended statement instantiated on one transparent
drawable — blending enabled under the fallback blend function when OIT
is unavailable, blending disabled in the OIT opaque pass. -/
theorem fallback_blend_amended_witness :
    drawBlend (Renderer.render stFallback initGLState argsFallbackOne).snd.snd
      = [(7, true, fallbackBlendFunc)]
    ∧ drawBlend (Renderer.render stAllCaps initGLState argsFallbackOne).snd.snd
      = [(7, false, initGLState.blendFunc)] := by
  constructor
  · exact ((fallback_blend_amended.1 stFallback initGLState argsFallbackOne rfl rfl).1).trans (by decide)
  · exact ((fallback_blend_amended.2 stAllCaps initGLState argsFallbackOne rfl rfl rfl).1).trans (by decide)

/-- C6: for the pick and depth variants, no drawable at all is drawn in
a transparent sub-pass; otherwise one loop runs that skips every
colorOnly drawable; in every variant an invisible drawable is skipped;
and in the pick variant an unpickable drawable is additionally
skipped. -/
theorem pick_depth_draw_filter (st : RendererState) (gls : GLState) (a : RenderArgs)
    (hv : a.variant = Variant.pick ∨ a.variant = Variant.depth) :
    (a.renderTransparent = true → drawnSeq (Renderer.render st gls a).snd.snd = [])
    ∧ (a.renderTransparent = false → a.variant = Variant.pick →
        drawnSeq (Renderer.render st gls a).snd.snd
          = (a.renderables.filter (fun r => !r.state.colorOnly && (r.state.visible && r.state.pickable))).map Renderable.id)
    ∧ (a.renderTransparent = false → a.variant = Variant.depth →
        drawnSeq (Renderer.render st gls a).snd.snd
          = (a.renderables.filter (fun r => !r.state.colorOnly && r.state.visible)).map Renderable.id) := by
  have hne : ¬(a.variant = Variant.color) := by
    rcases hv with h | h <;> rw [h] <;> intro hcc <;> exact absurd hcc (by decide)
  refine ⟨?_, ?_, ?_⟩
  · intro hrt
    unfold Renderer.render
    cases hc : a.clear <;>
      simp [hne, hrt, hc, drawnSeq_append, drawnSeq_clear, drawnSeq_flush, drawnSeq_cons_clear, drawnSeq_cons_flush, drawnSeq_nil,
        pickDepthPass_drawnSeq]
  · intro hrt hp
    unfold Renderer.render
    cases hc : a.clear <;>
      simp [hne, hrt, hp, hc, drawnSeq_append, drawnSeq_clear, drawnSeq_flush, drawnSeq_cons_clear, drawnSeq_cons_flush, drawnSeq_nil,
        pickDepthPass_drawnSeq, shouldDraw_pick]
  · intro hrt hd
    unfold Renderer.render
    cases hc : a.clear <;>
      simp [hne, hrt, hd, hc, drawnSeq_append, drawnSeq_clear, drawnSeq_flush, drawnSeq_cons_clear, drawnSeq_cons_flush, drawnSeq_nil,
        pickDepthPass_drawnSeq, shouldDraw_depth]

/-- C6 witness: pick skips hidden (4), unpickable (5) and colorOnly (6)
drawables; depth skips hidden and colorOnly but keeps the unpickable
one; the pick transparent sub-pass draws nothing. -/
theorem pick_depth_draw_filter_witness :
    drawnSeq (Renderer.render stAllCaps initGLState argsPickSample).snd.snd = [3, 1, 2]
    ∧ drawnSeq (Renderer.render stAllCaps initGLState argsDepthSample).snd.snd = [3, 1, 2, 5]
    ∧ drawnSeq (Renderer.render stAllCaps initGLState argsPickTrans).snd.snd = [] := by
  refine ⟨?_, ?_, ?_⟩
  · exact ((pick_depth_draw_filter stAllCaps initGLState argsPickSample (Or.inl rfl)).2.1 rfl rfl).trans (by decide)
  · exact ((pick_depth_draw_filter stAllCaps initGLState argsDepthSample (Or.inr rfl)).2.2 rfl rfl).trans (by decide)
  · exact (pick_depth_draw_filter stAllCaps initGLState argsPickTrans (Or.inl rfl)).1 rfl

/-- C8 witness: the amended statement instantiated at concrete inputs —
an empty configuration keeps capacity and a type slot at the plane
default, and an update over a previous state preserves the stale
slot. -/
theorem clip_arrays_amended_witness :
    ((getClip saaSample cpNone none).objects.count = 0
      ∧ ClipSized (getClip saaSample cpNone none).objects)
    ∧ (getClip saaSample cpNone none).objects.type.getD 3 0 = 1
    ∧ (getClip saaSample cpNone (some (getClip saaSample cpOne none))).objects.type.getD 0 0
        = (getClip saaSample cpOne none).objects.type.getD 0 0 := by
  refine ⟨(clip_arrays_amended.1 saaSample cpNone (by decide)).1, ?_, ?_⟩
  · exact (clip_arrays_amended.2.1 saaSample cpNone 3 (by decide) (by decide) (by decide)).1
  · exact (clip_arrays_amended.2.2 saaSample cpNone (getClip saaSample cpOne none) 0 (by decide)
      (((clip_arrays_amended.1 saaSample cpOne (by decide)).1).2) (by decide)).1

/-- No setProps block changes the WBOIT capability decision. -/
theorem updateBackgroundColor_enableWboit (st : RendererState) (o : Option Nat) :
    (updateBackgroundColor st o).enableWboit = st.enableWboit := by
  unfold updateBackgroundColor
  split <;> first
  | rfl
  | (split <;> rfl)

/-- updatePickingAlphaThreshold keeps the WBOIT decision. -/
theorem updatePickingAlphaThreshold_enableWboit (st : RendererState) (o : Option ℚ) :
    (updatePickingAlphaThreshold st o).enableWboit = st.enableWboit := by
  unfold updatePickingAlphaThreshold
  split <;> first
  | rfl
  | (split <;> rfl)

/-- updateTransparencyVariant keeps the WBOIT decision. -/
theorem updateTransparencyVariant_enableWboit (st : RendererState) (o : Option TransparencyVariant) :
    (updateTransparencyVariant st o).enableWboit = st.enableWboit := by
  unfold updateTransparencyVariant
  split <;> first
  | rfl
  | (split <;> rfl)

/-- updateInteriorDarkening keeps the WBOIT decision. -/
theorem updateInteriorDarkening_enableWboit (st : RendererState) (o : Option ℚ) :
    (updateInteriorDarkening st o).enableWboit = st.enableWboit := by
  unfold updateInteriorDarkening
  split <;> first
  | rfl
  | (split <;> rfl)

/-- updateInteriorColorFlag keeps the WBOIT decision. -/
theorem updateInteriorColorFlag_enableWboit (st : RendererState) (o : Option Bool) :
    (updateInteriorColorFlag st o).enableWboit = st.enableWboit := by
  unfold updateInteriorColorFlag
  split <;> first
  | rfl
  | (split <;> rfl)

/-- updateInteriorColor keeps the WBOIT decision. -/
theorem updateInteriorColor_enableWboit (st : RendererState) (o : Option Nat) :
    (updateInteriorColor st o).enableWboit = st.enableWboit := by
  unfold updateInteriorColor
  split <;> first
  | rfl
  | (split <;> rfl)

/-- updateHighlightColor keeps the WBOIT decision. -/
theorem updateHighlightColor_enableWboit (st : RendererState) (o : Option Nat) :
    (updateHighlightColor st o).enableWboit = st.enableWboit := by
  unfold updateHighlightColor
  split <;> first
  | rfl
  | (split <;> rfl)

/-- updateSelectColor keeps the WBOIT decision. -/
theorem updateSelectColor_enableWboit (st : RendererState) (o : Option Nat) :
    (updateSelectColor st o).enableWboit = st.enableWboit := by
  unfold updateSelectColor
  split <;> first
  | rfl
  | (split <;> rfl)

/-- updateStyle keeps the WBOIT decision. -/
theorem updateStyle_enableWboit (st : RendererState) (o : Option StyleProps) :
    (updateStyle st o).enableWboit = st.enableWboit := by
  unfold updateStyle
  split <;> rfl

/-- updateClip keeps the WBOIT decision. -/
theorem updateClip_enableWboit (saa : Vec3q → ℚ → Quat4) (st : RendererState) (o : Option ClipProps) :
    (updateClip saa st o).enableWboit = st.enableWboit := by
  unfold updateClip
  split <;> first
  | rfl
  | (split <;> rfl)

/-- setProps never changes the WBOIT capability decision. -/
theorem setProps_enableWboit (saa : Vec3q → ℚ → Quat4) (st : RendererState) (pr : PartialProps) :
    (Renderer.setProps saa st pr).enableWboit = st.enableWboit := by
  unfold Renderer.setProps
  rw [updateClip_enableWboit, updateStyle_enableWboit, updateSelectColor_enableWboit,
    updateHighlightColor_enableWboit, updateInteriorColor_enableWboit,
    updateInteriorColorFlag_enableWboit, updateInteriorDarkening_enableWboit,
    updateTransparencyVariant_enableWboit, updatePickingAlphaThreshold_enableWboit,
    updateBackgroundColor_enableWboit]

/-- render never changes the WBOIT capability decision. -/
theorem render_enableWboit (st : RendererState) (gls : GLState) (a : RenderArgs) :
    (Renderer.render st gls a).fst.enableWboit = st.enableWboit := by
  unfold Renderer.render
  dsimp only
  split_ifs <;> rfl

/-- setViewport never changes the WBOIT capability decision. -/
theorem setViewport_enableWboit (st : RendererState) (x y w h : Int) :
    (Renderer.setViewport st x y w h).enableWboit = st.enableWboit := by
  unfold Renderer.setViewport
  split
  · dsimp only
    split <;> rfl
  · rfl

/-- drawsToOffscreen distributes over concatenation. -/
theorem drawsToOffscreen_append (a b : List Event) :
    drawsToOffscreen (a ++ b) = (drawsToOffscreen a || drawsToOffscreen b) := by
  simp [drawsToOffscreen]

/-- drawsToOffscreen of the empty trace. -/
theorem drawsToOffscreen_nil : drawsToOffscreen [] = false := rfl

/-- A flush draws nothing offscreen. -/
theorem drawsToOffscreen_flush : drawsToOffscreen [Event.flush] = false := rfl

/-- A leading buffer clear drops out of drawsToOffscreen. -/
theorem drawsToOffscreen_cons_clear (b : FbBinding) (c : Rgba) (cb db : Bool) (t : List Event) :
    drawsToOffscreen (Event.clearCall b c cb db :: t) = drawsToOffscreen t := rfl

/-- A leading flush drops out of drawsToOffscreen. -/
theorem drawsToOffscreen_cons_flush (t : List Event) :
    drawsToOffscreen (Event.flush :: t) = drawsToOffscreen t := rfl

/-- The non-WBOIT color path draws only to the framebuffer it was
entered on. -/
theorem fallbackColorPass_offscreen (fd : Bool) (rs : List Renderable) (s : GLState)
    (hfb : ∀ i, ¬ s.boundFb = FbBinding.fb i) :
    drawsToOffscreen (fallbackColorPass fd rs s).snd = false := by
  cases hoff : drawsToOffscreen (fallbackColorPass fd rs s).snd with
  | false => rfl
  | true =>
    exfalso
    unfold drawsToOffscreen at hoff
    obtain ⟨e, he, hpe⟩ := List.any_eq_true.mp hoff
    unfold fallbackColorPass at he
    obtain ⟨h11, h12, h13, h14, h15⟩ :=
      renderLoop_spec fd (fun st => st.opaqueFlag) Variant.color rs s
    obtain ⟨h21, h22, h23, h24, h25⟩ :=
      renderLoop_spec fd (fun st => !st.opaqueFlag && st.writeDepth) Variant.color rs
        { (renderLoop fd (fun st => st.opaqueFlag) Variant.color rs s).fst with
          blendFunc := fallbackBlendFunc, blend := true }
    obtain ⟨h31, h32, h33, h34, h35⟩ :=
      renderLoop_spec fd (fun st => !st.opaqueFlag && !st.writeDepth) Variant.color rs
        (renderLoop fd (fun st => !st.opaqueFlag && st.writeDepth) Variant.color rs
          { (renderLoop fd (fun st => st.opaqueFlag) Variant.color rs s).fst with
            blendFunc := fallbackBlendFunc, blend := true }).fst
    have hbound : ∃ i sv, e = Event.draw i Variant.color sv ∧ sv.boundFb = s.boundFb := by
      rcases List.mem_append.mp he with h0 | h3
      · rcases List.mem_append.mp h0 with h1 | h2
        · exact h15 e h1
        · obtain ⟨i, sv, he2, hb⟩ := h25 e h2
          exact ⟨i, sv, he2, hb.trans h14⟩
      · obtain ⟨i, sv, he2, hb⟩ := h35 e h3
        exact ⟨i, sv, he2, hb.trans (h24.trans h14)⟩
    obtain ⟨i, sv, rfl, hb⟩ := hbound
    have hpe2 : (match sv.boundFb with | FbBinding.fb _ => true | _ => false) = true := hpe
    rw [hb] at hpe2
    cases hsb : s.boundFb with
    | fb j => exact hfb j hsb
    | defaultFb => rw [hsb] at hpe2; exact absurd hpe2 (by decide)
    | target => rw [hsb] at hpe2; exact absurd hpe2 (by decide)

/-- C3: the WBOIT capability decision equals the conjunction of the
float-texture, float color-buffer and depth-texture capabilities at
construction (so is the resolve renderable); no later operation
(render, setProps, setViewport, dispose) ever changes it; whenever it
is false, a color-variant render call performs no resolve draw and
draws only to the render target or default framebuffer (the ordered
alpha-blending fallback); and whenever it is true a color-variant
transparent sub-pass performs exactly one resolve draw, so the WBOIT
path is reachable exactly when the capabilities were present at
construction. -/
theorem wboit_capability_gate :
    (∀ (saa : Vec3q → ℚ → Quat4) (caps : Caps) (fd : Bool) (props : Props),
      (Renderer.create saa caps fd props).enableWboit
        = (caps.textureFloat && caps.colorBufferFloat && caps.depthTexture)
      ∧ (Renderer.create saa caps fd props).hasEvaluateWboit
        = (caps.textureFloat && caps.colorBufferFloat && caps.depthTexture))
    ∧ (∀ (st : RendererState) (gls : GLState) (a : RenderArgs),
        (Renderer.render st gls a).fst.enableWboit = st.enableWboit)
    ∧ (∀ (saa : Vec3q → ℚ → Quat4) (st : RendererState) (pr : PartialProps),
        (Renderer.setProps saa st pr).enableWboit = st.enableWboit)
    ∧ (∀ (st : RendererState) (x y w h : Int),
        (Renderer.setViewport st x y w h).enableWboit = st.enableWboit)
    ∧ (∀ st : RendererState, (Renderer.dispose st).enableWboit = st.enableWboit)
    ∧ (∀ (st : RendererState) (gls : GLState) (a : RenderArgs),
        st.enableWboit = false → a.variant = Variant.color →
        evaluateCount (Renderer.render st gls a).snd.snd = 0
        ∧ drawsToOffscreen (Renderer.render st gls a).snd.snd = false)
    ∧ (∀ (st : RendererState) (gls : GLState) (a : RenderArgs),
        st.enableWboit = true → st.hasEvaluateWboit = true →
        a.variant = Variant.color → a.renderTransparent = true →
        evaluateCount (Renderer.render st gls a).snd.snd = 1) := by
  refine ⟨fun saa caps fd props => ⟨rfl, rfl⟩, render_enableWboit, setProps_enableWboit,
    setViewport_enableWboit, fun st => rfl, ?_, ?_⟩
  · intro st gls a hw hv
    constructor
    · unfold Renderer.render
      cases hc : a.clear <;>
        simp [hv, hw, hc, evaluateCount_append, evaluateCount_clear, evaluateCount_flush, evaluateCount_cons_clear, evaluateCount_cons_flush, evaluateCount_nil,
          fallbackColorPass_evalCount]
    · unfold Renderer.render
      cases hc : a.clear <;> cases ht : a.hasRenderTarget <;>
        simp [hv, hw, hc, ht, drawsToOffscreen_append, drawsToOffscreen_cons_clear,
          drawsToOffscreen_cons_flush, drawsToOffscreen_nil, drawsToOffscreen_flush,
          fallbackColorPass_offscreen]
  · intro st gls a hw hhas hv hrt
    unfold Renderer.render
    cases hc : a.clear <;>
      simp [hv, hw, hrt, hhas, hc, evaluateCount_append, evaluateCount_clear, evaluateCount_flush, evaluateCount_cons_clear, evaluateCount_cons_flush, evaluateCount_nil,
        wboitSubpass_evalCount]

/-- C3 witness: the gate instantiated — all capabilities give an enabled
WBOIT renderer whose transparent sub-pass resolves once; without
capabilities a color render resolves never and draws only to the
target. -/
theorem wboit_capability_gate_witness :
    stAllCaps.enableWboit = true
    ∧ evaluateCount (Renderer.render stAllCaps initGLState argsWboitSub).snd.snd = 1
    ∧ evaluateCount (Renderer.render stFallback initGLState argsColorSample).snd.snd = 0
    ∧ drawsToOffscreen (Renderer.render stFallback initGLState argsColorSample).snd.snd = false := by
  refine ⟨?_, ?_, ?_, ?_⟩
  · exact (wboit_capability_gate.1 saaSample capsAll true defaultProps).1
  · exact wboit_capability_gate.2.2.2.2.2.2 stAllCaps initGLState argsWboitSub rfl rfl rfl rfl
  · exact (wboit_capability_gate.2.2.2.2.2.1 stFallback initGLState argsColorSample rfl rfl).1
  · exact (wboit_capability_gate.2.2.2.2.2.1 stFallback initGLState argsColorSample rfl rfl).2

/-- C4: the claim is the code's own stated invariant (both accumulation
textures cleared to (0,0,0,1) before accumulating), and the code
violates it when the drawBuffers extension is absent: only
wboitFramebuffers[0] is bound and cleared (renderer.ts lines 449-452),
and in the two-framebuffer layout texture B is attached to
wboitFramebuffers[1], which is never bound nor cleared.  Concretely:
with float capabilities but no drawBuffers, the WBOIT sub-pass trace
of a scene with one transparent drawable clears only texture 0
(accumA), never texture 1 (accumB), even though the drawable is
accumulated; with drawBuffers present both textures hang off the one
cleared framebuffer and are cleared as the claim demands. -/
theorem wboit_accum_clear_missing :
    stNoDB.enableWboit = true
    ∧ stNoDB.wboitATexture = some 0
    ∧ stNoDB.wboitBTexture = some 1
    ∧ drawnSeq (Renderer.render stNoDB initGLState argsWboitSub).snd.snd = [7]
    ∧ clearedColorTextures stNoDB (Renderer.render stNoDB initGLState argsWboitSub).snd.snd = [0]
    ∧ clearedColorTextures stAllCaps (Renderer.render stAllCaps initGLState argsWboitSub).snd.snd = [0, 1] := by
  exact ⟨rfl, rfl, rfl, by decide, by decide, by decide⟩

/-- C5: with clear = true a color render first clears to the background
color with alpha 0 when transparentBackground and alpha 1 otherwise; a
pick or depth render first clears to opaque white; and after
setProps({backgroundColor := C}) the standalone clear(tb) emits
exactly one clear of the default framebuffer to the normalized C with
alpha 0 when tb and 1 otherwise (the hypothesis in the third part is
the construction invariant that the cached normalized background
matches the stored property). -/
theorem clear_behavior :
    (∀ (st : RendererState) (gls : GLState) (a : RenderArgs),
      a.clear = true → a.variant = Variant.color →
      (Renderer.render st gls a).snd.snd.head?
        = some (Event.clearCall (if a.hasRenderTarget then FbBinding.target else FbBinding.defaultFb)
            ⟨st.bgColor.x, st.bgColor.y, st.bgColor.z, if a.transparentBackground then 0 else 1⟩ true true))
    ∧ (∀ (st : RendererState) (gls : GLState) (a : RenderArgs),
      a.clear = true → (a.variant = Variant.pick ∨ a.variant = Variant.depth) →
      (Renderer.render st gls a).snd.snd.head?
        = some (Event.clearCall (if a.hasRenderTarget then FbBinding.target else FbBinding.defaultFb)
            ⟨1, 1, 1, 1⟩ true true))
    ∧ (∀ (saa : Vec3q → ℚ → Quat4) (st : RendererState) (gls : GLState) (c : Nat) (tb : Bool),
      st.bgColor = normColor st.p.backgroundColor →
      (Renderer.clear (Renderer.setProps saa st (bgPartial c)) gls tb).snd
        = [Event.clearCall FbBinding.defaultFb
            ⟨(normColor c).x, (normColor c).y, (normColor c).z, if tb then 0 else 1⟩ true true]) := by
  refine ⟨?_, ?_, ?_⟩
  · intro st gls a hc hv
    unfold Renderer.render
    cases hw : st.enableWboit <;> cases hrt : a.renderTransparent <;>
      simp [hv, hc, hw, hrt]
  · intro st gls a hc hv
    have hne : ¬(a.variant = Variant.color) := by
      rcases hv with h | h <;> rw [h] <;> intro hcc <;> exact absurd hcc (by decide)
    unfold Renderer.render
    simp [hne, hc]
  · intro saa st gls c tb hbg
    have hbg2 : (Renderer.setProps saa st (bgPartial c)).bgColor = normColor c := by
      show (updateBackgroundColor st (some c)).bgColor = normColor c
      simp only [updateBackgroundColor]
      split
      · rfl
      · rename_i hne
        push_neg at hne
        rw [hbg, ← hne]
    unfold Renderer.clear
    dsimp only
    rw [hbg2]

/-- C5 witness: all three parts instantiated — clearing a color frame
with transparent background gives the black background at alpha 0, a
pick frame clears to white, and setting a pure red background then
clearing opaquely clears to (1, 0, 0, 1). -/
theorem clear_behavior_witness :
    (Renderer.render stAllCaps initGLState (mkArgs [] Variant.color true true false)).snd.snd.head?
      = some (Event.clearCall FbBinding.target ⟨0, 0, 0, 0⟩ true true)
    ∧ (Renderer.render stAllCaps initGLState (mkArgs [] Variant.pick true false false)).snd.snd.head?
      = some (Event.clearCall FbBinding.target ⟨1, 1, 1, 1⟩ true true)
    ∧ (Renderer.clear (Renderer.setProps saaSample stAllCaps (bgPartial 0xFF0000)) initGLState false).snd
      = [Event.clearCall FbBinding.defaultFb ⟨1, 0, 0, 1⟩ true true] := by
  refine ⟨?_, ?_, ?_⟩
  · have hbg : stAllCaps.bgColor = ⟨0, 0, 0⟩ := by
      norm_num [stAllCaps, Renderer.create, defaultProps, normColor]
    have h := clear_behavior.1 stAllCaps initGLState (mkArgs [] Variant.color true true false) rfl rfl
    rw [hbg] at h
    simpa [mkArgs] using h
  · have h := clear_behavior.2.1 stAllCaps initGLState (mkArgs [] Variant.pick true false false) rfl (Or.inl rfl)
    simpa [mkArgs] using h
  · have h := clear_behavior.2.2 saaSample stAllCaps initGLState 0xFF0000 false rfl
    have hco : normColor 0xFF0000 = ⟨1, 0, 0⟩ := by norm_num [normColor]
    rw [hco] at h
    simpa using h

/-- C7: calling setViewport twice with identical values is absorbed by
the first call — the renderer state after the second call is the very
state after the first, so no WBOIT texture or framebuffer is destroyed
or reallocated, the stats framebuffer count is unchanged, and no
viewport uniform value changes (the unconditional gl.viewport and
gl.scissor calls of renderer.ts lines 596-597 touch rasterizer state
only, not resources or uniforms). -/
theorem setViewport_idempotent (st : RendererState) (x y w h : Int) :
    Renderer.setViewport (Renderer.setViewport st x y w h) x y w h
      = Renderer.setViewport st x y w h
    ∧ Renderer.statsOf (Renderer.setViewport (Renderer.setViewport st x y w h) x y w h)
      = Renderer.statsOf (Renderer.setViewport st x y w h) := by
  have key : ∀ st2 : RendererState,
      st2.viewportX = x → st2.viewportY = y → st2.viewportW = w → st2.viewportH = h →
      Renderer.setViewport st2 x y w h = st2 := by
    intro st2 h1 h2 h3 h4
    have hnc : ¬(x ≠ st2.viewportX ∨ y ≠ st2.viewportY ∨ w ≠ st2.viewportW ∨ h ≠ st2.viewportH) := by
      push_neg
      exact ⟨h1.symm, h2.symm, h3.symm, h4.symm⟩
    unfold Renderer.setViewport
    rw [if_neg hnc]
  have hvp : (Renderer.setViewport st x y w h).viewportX = x
      ∧ (Renderer.setViewport st x y w h).viewportY = y
      ∧ (Renderer.setViewport st x y w h).viewportW = w
      ∧ (Renderer.setViewport st x y w h).viewportH = h := by
    unfold Renderer.setViewport
    split
    · dsimp only
      split <;> exact ⟨rfl, rfl, rfl, rfl⟩
    · rename_i hng
      push_neg at hng
      exact ⟨hng.1.symm, hng.2.1.symm, hng.2.2.1.symm, hng.2.2.2.symm⟩
  obtain ⟨e1, e2, e3, e4⟩ := hvp
  have hmain := key (Renderer.setViewport st x y w h) e1 e2 e3 e4
  exact ⟨hmain, by rw [hmain]⟩

/-- C9: the claim states dispose releases every owned GPU resource, but
the dispose body is an empty TODO stub (renderer.ts lines 651-653) —
disposal returns the state unchanged, and on a fully capable renderer
the two WBOIT textures and both framebuffers created at construction
are still alive afterwards. -/
theorem dispose_is_stub :
    Renderer.dispose stAllCaps = stAllCaps
    ∧ (Renderer.statsOf (Renderer.dispose stAllCaps)).framebufferCount = 2
    ∧ (Renderer.statsOf (Renderer.dispose stAllCaps)).textureCount = 2
    ∧ stAllCaps.wboitATexture = some 0
    ∧ stAllCaps.wboitBTexture = some 1
    ∧ (Renderer.dispose stAllCaps).res.framebuffers = stAllCaps.wboitFramebuffers := by
  exact ⟨rfl, by decide, by decide, rfl, rfl, by decide⟩

/-- C10: construction always allocates the WBOIT framebuffers — two
when the drawBuffers extension is present (the initial one plus one),
three otherwise (the initial one plus two) — independently of the
float-texture capability gate; only the two float textures and the
resolve renderable are gated, so the stats framebuffer count includes
these framebuffers regardless of float-texture support. -/
theorem create_always_allocates_wboit_framebuffers
    (saa : Vec3q → ℚ → Quat4) (caps : Caps) (fd : Bool) (props : Props) :
    (Renderer.create saa caps fd props).wboitFramebuffers.length
      = (if caps.drawBuffers then 2 else 3)
    ∧ (Renderer.statsOf (Renderer.create saa caps fd props)).framebufferCount
      = (if caps.drawBuffers then 2 else 3)
    ∧ (Renderer.statsOf (Renderer.create saa caps fd props)).textureCount
      = (if (caps.textureFloat && caps.colorBufferFloat && caps.depthTexture) then 2 else 0)
    ∧ (Renderer.create saa caps fd props).hasEvaluateWboit
      = (caps.textureFloat && caps.colorBufferFloat && caps.depthTexture) := by
  cases hdb : caps.drawBuffers <;>
    cases hfl : (caps.textureFloat && caps.colorBufferFloat && caps.depthTexture) <;>
    simp [Renderer.create, Renderer.statsOf, Resources.newTexture, Resources.newFramebuffer,
      hdb, hfl]

end MolGL
